import Mathlib

/-!
# Verification development for the atomix command-line client

A shallow embedding of `pkg/cli/command` (output.go, completion.go, config.go,
set.go, lock.go, group.go).  A command handler is a value of `Cmd α`: the trace of
observable events it produces (writes to the standard streams, calls on the remote
clients, invocations of cancel functions) together with its outcome: `exit code` (the
handler called `os.Exit(code)`), `panic` (a Go run-time panic) or `ret a` (it returned
`a`).

External collaborators (the cobra bash generator, the viper store, the atomix client
library) and the helpers of this package that live outside the six files are taken as
parameters, so every theorem holds for all their behaviours.
-/

namespace AtomixCli

/-! ## Go values, errors and formatting -/

/-- A Go `error`, identified with the text its `Error()` method returns. -/
structure Error where
  msg : String
  deriving DecidableEq, Repr

/-- The dynamic values (`interface{}`) the handlers hand to `fmt.Fprintln`. -/
inductive Value where
  | nil
  | str (s : String)
  | bool (b : Bool)
  | int (i : Int)
  | uint (n : Nat)
  deriving DecidableEq, Repr

/-- The `%v` rendering `fmt` gives an operand: `<nil>` for the nil interface, the
text of a string, `true`/`false`, and decimal digits for the integer kinds. -/
def Value.format : Value → String
  | .nil => "<nil>"
  | .str s => s
  | .bool b => if b then "true" else "false"
  | .int i => toString i
  | .uint n => toString n

/-- The text `fmt.Fprintln` writes for its operands: the renderings separated by single
spaces, followed by a newline. -/
def Sprintln (operands : List Value) : String :=
  String.intercalate " " (operands.map Value.format) ++ "\n"

/-! ## Events, outcomes and the handler monad -/

/-- The deadline context handed to a remote call; it carries the `--timeout` value. -/
structure Context where
  timeout : Nat
  deriving DecidableEq, Repr

/-- The protocol descriptor passed to `CreateGroup` (`proto.Message`). -/
inductive Protocol where
  | raft
  | log
  deriving DecidableEq, Repr

/-- An option of a lock call; `lock.IfVersion(v)` is the version precondition. -/
inductive LockOption where
  | IfVersion (version : Nat)
  deriving DecidableEq, Repr

/-- The calls the handlers make on the atomix client library, with their arguments. -/
inductive Call where
  | GetSet (ctx : Context) (name : String)
  | SetAdd (ctx : Context) (value : String)
  | SetContains (ctx : Context) (value : String)
  | SetRemove (ctx : Context) (value : String)
  | SetLen (ctx : Context)
  | SetClear (ctx : Context)
  | SetDelete (ctx : Context)
  | SetClose (ctx : Context)
  | GetLock (ctx : Context) (name : String)
  | LockLock (ctx : Context)
  | LockIsLocked (ctx : Context) (opts : List LockOption)
  | LockUnlock (ctx : Context) (opts : List LockOption)
  | LockDelete
  | LockClose
  | GetGroup (ctx : Context) (name : String)
  | CreateGroup (ctx : Context) (name : String) (partitions partitionSize : Int)
      (protocol : Option Protocol)
  | DeleteGroup (ctx : Context) (name : String)
  | GetGroups (ctx : Context)
  deriving DecidableEq, Repr

/-- What a handler does that can be observed from outside. -/
inductive Event where
  | stdout (text : String)
  | stderr (text : String)
  | call (c : Call)
  | cancel (ctx : Context)
  deriving DecidableEq, Repr

/-- How a piece of handler code ends: `os.Exit(code)`, a Go run-time panic (an index
out of range), or a normal return. -/
inductive Outcome (α : Type) where
  | exit (code : Int)
  | panic
  | ret (a : α)
  deriving DecidableEq, Repr

/-- A run of handler code: the events in order, and how it ended. -/
structure Cmd (α : Type) where
  trace : List Event
  outcome : Outcome α

namespace Cmd

/-- Returning a value produces no event. -/
def pure {α : Type} (a : α) : Cmd α := ⟨[], .ret a⟩

/-- Sequencing: once `os.Exit` has been called, or a panic raised, the rest of the
code does not run. -/
def bind {α β : Type} (m : Cmd α) (f : α → Cmd β) : Cmd β :=
  match m.outcome with
  | .exit code => ⟨m.trace, .exit code⟩
  | .panic => ⟨m.trace, .panic⟩
  | .ret a => ⟨m.trace ++ (f a).trace, (f a).outcome⟩

instance : Monad Cmd where
  pure := Cmd.pure
  bind := Cmd.bind

/-- One observable event. -/
def emit (e : Event) : Cmd Unit := ⟨[e], .ret ()⟩

/-- The call `os.Exit(code)`: the process ends here. -/
def osExit {α : Type} (code : Int) : Cmd α := ⟨[], .exit code⟩

/-- A Go run-time panic, as raised by `args[0]` on an empty argument list. -/
def goPanic {α : Type} : Cmd α := ⟨[], .panic⟩

/-- A call on the remote client: the call is recorded and its response returned. -/
def remote {α : Type} (c : Call) (response : α) : Cmd α := ⟨[.call c], .ret response⟩

/-- Go's `defer d` in front of `body`: `d` runs when the body returns normally or
panics, and does not run when the body ends the process through `os.Exit`. -/
def withDefer {α : Type} (d : Cmd Unit) (body : Cmd α) : Cmd α :=
  match body.outcome with
  | .exit code => ⟨body.trace, .exit code⟩
  | .panic =>
    match d.outcome with
    | .exit code => ⟨body.trace ++ d.trace, .exit code⟩
    | _ => ⟨body.trace ++ d.trace, .panic⟩
  | .ret a =>
    match d.outcome with
    | .exit code => ⟨body.trace ++ d.trace, .exit code⟩
    | .panic => ⟨body.trace ++ d.trace, .panic⟩
    | .ret _ => ⟨body.trace ++ d.trace, .ret a⟩

/-- The text the events of a trace write to standard output, in order. -/
def stdoutOf : List Event → String
  | [] => ""
  | .stdout text :: rest => text ++ stdoutOf rest
  | _ :: rest => stdoutOf rest

/-- The text the events of a trace write to standard error, in order. -/
def stderrOf : List Event → String
  | [] => ""
  | .stderr text :: rest => text ++ stderrOf rest
  | _ :: rest => stderrOf rest

/-- The remote calls among the events of a trace, in order. -/
def callsOf : List Event → List Call
  | [] => []
  | .call c :: rest => c :: callsOf rest
  | _ :: rest => callsOf rest

/-- Everything a run writes to standard output. -/
def stdoutText {α : Type} (m : Cmd α) : String := stdoutOf m.trace

/-- Everything a run writes to standard error. -/
def stderrText {α : Type} (m : Cmd α) : String := stderrOf m.trace

/-- The remote calls a run makes, in order. -/
def calls {α : Type} (m : Cmd α) : List Call := callsOf m.trace

end Cmd

/-! ## output.go -/

def ExitSuccess : Int := 0
def ExitError : Int := 1
def ExitBadConnection : Int := 2
def ExitInvalidInput : Int := 3
def ExitBadFeature : Int := 4
def ExitInterrupted : Int := 5
def ExitIO : Int := 6
def ExitBadArgs : Int := 128

/-- Go `ExitWithOutput(output...)`: print the operands on standard output, exit 0. -/
def ExitWithOutput {α : Type} (output : List Value) : Cmd α := do
  Cmd.emit (.stdout (Sprintln output))
  Cmd.osExit ExitSuccess

/-- Go `ExitWithSuccess()`: exit 0 without printing. -/
def ExitWithSuccess {α : Type} : Cmd α :=
  Cmd.osExit ExitSuccess

/-- Go `ExitWithError(code, err)`: print `Error:` and the error on standard error, exit
with `code`. -/
def ExitWithError {α : Type} (code : Int) (err : Error) : Cmd α := do
  Cmd.emit (.stderr (Sprintln [.str "Error:", .str err.msg]))
  Cmd.osExit code

/-! ## completion.go -/

/-- The command tree of cobra: a command with its use line and its subcommands. -/
inductive CommandTree where
  | node (use : String) (children : List CommandTree)

/-- The command a handler is run for: the parsed values of the flags the handlers read
(each with cobra's default when the flag is not given) and the parent command. -/
structure Command where
  name : String := ""
  version : Nat := 0
  protocol : String := "raft"
  partitions : Int := 1
  partitionSize : Int := 1
  noHeaders : Bool := false
  timeout : Nat := 15000000000
  parent : CommandTree := .node "atomix" []

/-- An `io.Writer`: what a `Write` of some text does. -/
abbrev Writer := String → Cmd Unit

/-- The writer `os.Stdout`. -/
def osStdout : Writer := fun text => Cmd.emit (.stdout text)

/-- cobra's `GenBashCompletion`, external to the package: for a command tree, the text
it writes to its writer and the error it returns (`none` for nil). -/
structure Cobra where
  GenBashCompletion : CommandTree → String × Option Error

/-- Go `runCompletionBash(out, cmd)`: the bash generator writing to `out`; its error is
returned. -/
def runCompletionBash (cobra : Cobra) (out : Writer) (cmd : CommandTree) :
    Cmd (Option Error) := do
  out (cobra.GenBashCompletion cmd).1
  pure (cobra.GenBashCompletion cmd).2

/-- The literal `zsh_head`. -/
def zsh_head : String := "#compdef atomix\n"

/-- The lines of the literal assigned to zsh_initialization in runCompletionZsh. -/
def zsh_initialization_lines : List String := [
  "\n",
  "__atomix_bash_source() \x7b\n",
  "\talias shopt=\x27:\x27\n",
  "\talias _expand=_bash_expand\n",
  "\talias _complete=_bash_comp\n",
  "\temulate -L sh\n",
  "\tsetopt kshglob noshglob braceexpand\n",
  "\n",
  "\tsource \"$@\"\n",
  "\x7d\n",
  "\n",
  "__atomix_type() \x7b\n",
  "\t# -t is not supported by zsh\n",
  "\tif [ \"$1\" == \"-t\" ]; then\n",
  "\t\tshift\n",
  "\n",
  "\t\t# fake Bash 4 to disable \"complete -o nospace\". Instead\n",
  "\t\t# \"compopt +-o nospace\" is used in the code to toggle trailing\n",
  "\t\t# spaces. We don\x27t support that, but leave trailing spaces on\n",
  "\t\t# all the time\n",
  "\t\tif [ \"$1\" = \"__atomix_compopt\" ]; then\n",
  "\t\t\techo builtin\n",
  "\t\t\treturn 0\n",
  "\t\tfi\n",
  "\tfi\n",
  "\ttype \"$@\"\n",
  "\x7d\n",
  "\n",
  "__atomix_compgen() \x7b\n",
  "\tlocal completions w\n",
  "\tcompletions=( $(compgen \"$@\") ) || return $?\n",
  "\n",
  "\t# filter by given word as prefix\n",
  "\twhile [[ \"$1\" = -* && \"$1\" != -- ]]; do\n",
  "\t\tshift\n",
  "\t\tshift\n",
  "\tdone\n",
  "\tif [[ \"$1\" == -- ]]; then\n",
  "\t\tshift\n",
  "\tfi\n",
  "\tfor w in \"$\x7bcompletions[@]\x7d\"; do\n",
  "\t\tif [[ \"$\x7bw\x7d\" = \"$1\"* ]]; then\n",
  "\t\t\techo \"$\x7bw\x7d\"\n",
  "\t\tfi\n",
  "\tdone\n",
  "\x7d\n",
  "\n",
  "__atomix_compopt() \x7b\n",
  "\ttrue # don\x27t do anything. Not supported by bashcompinit in zsh\n",
  "\x7d\n",
  "\n",
  "__atomix_ltrim_colon_completions()\n",
  "\x7b\n",
  "\tif [[ \"$1\" == *:* && \"$COMP_WORDBREAKS\" == *:* ]]; then\n",
  "\t\t# Remove colon-word prefix from COMPREPLY items\n",
  "\t\tlocal colon_word=$\x7b1%$\x7b1##*:\x7d\x7d\n",
  "\t\tlocal i=$\x7b#COMPREPLY[*]\x7d\n",
  "\t\twhile [[ $((--i)) -ge 0 ]]; do\n",
  "\t\t\tCOMPREPLY[$i]=$\x7bCOMPREPLY[$i]#\"$colon_word\"\x7d\n",
  "\t\tdone\n",
  "\tfi\n",
  "\x7d\n",
  "\n",
  "__atomix_get_comp_words_by_ref() \x7b\n",
  "\tcur=\"$\x7bCOMP_WORDS[COMP_CWORD]\x7d\"\n",
  "\tprev=\"$\x7bCOMP_WORDS[$\x7bCOMP_CWORD\x7d-1]\x7d\"\n",
  "\twords=(\"$\x7bCOMP_WORDS[@]\x7d\")\n",
  "\tcword=(\"$\x7bCOMP_CWORD[@]\x7d\")\n",
  "\x7d\n",
  "\n",
  "__atomix_filedir() \x7b\n",
  "\tlocal RET OLD_IFS w qw\n",
  "\n",
  "\t__debug \"_filedir $@ cur=$cur\"\n",
  "\tif [[ \"$1\" = \\~* ]]; then\n",
  "\t\t# somehow does not work. Maybe, zsh does not call this at all\n",
  "\t\teval echo \"$1\"\n",
  "\t\treturn 0\n",
  "\tfi\n",
  "\n",
  "\tOLD_IFS=\"$IFS\"\n",
  "\tIFS=$\x27\\n\x27\n",
  "\tif [ \"$1\" = \"-d\" ]; then\n",
  "\t\tshift\n",
  "\t\tRET=( $(compgen -d) )\n",
  "\telse\n",
  "\t\tRET=( $(compgen -f) )\n",
  "\tfi\n",
  "\tIFS=\"$OLD_IFS\"\n",
  "\n",
  "\tIFS=\",\" __debug \"RET=$\x7bRET[@]\x7d len=$\x7b#RET[@]\x7d\"\n",
  "\n",
  "\tfor w in $\x7bRET[@]\x7d; do\n",
  "\t\tif [[ ! \"$\x7bw\x7d\" = \"$\x7bcur\x7d\"* ]]; then\n",
  "\t\t\tcontinue\n",
  "\t\tfi\n",
  "\t\tif eval \"[[ \\\"\\$\x7bw\x7d\\\" = *.$1 || -d \\\"\\$\x7bw\x7d\\\" ]]\"; then\n",
  "\t\t\tqw=\"$(__atomix_quote \"$\x7bw\x7d\")\"\n",
  "\t\t\tif [ -d \"$\x7bw\x7d\" ]; then\n",
  "\t\t\t\tCOMPREPLY+=(\"$\x7bqw\x7d/\")\n",
  "\t\t\telse\n",
  "\t\t\t\tCOMPREPLY+=(\"$\x7bqw\x7d\")\n",
  "\t\t\tfi\n",
  "\t\tfi\n",
  "\tdone\n",
  "\x7d\n",
  "\n",
  "__atomix_quote() \x7b\n",
  "    if [[ $1 == \\\x27* || $1 == \\\"* ]]; then\n",
  "        # Leave out first character\n",
  "        printf %q \"$\x7b1:1\x7d\"\n",
  "    else\n",
  "    \tprintf %q \"$1\"\n",
  "    fi\n",
  "\x7d\n",
  "\n",
  "autoload -U +X bashcompinit && bashcompinit\n",
  "\n",
  "# use word boundary patterns for BSD or GNU sed\n",
  "LWORD=\x27[[:<:]]\x27\n",
  "RWORD=\x27[[:>:]]\x27\n",
  "if sed --help 2>&1 | grep -q GNU; then\n",
  "\tLWORD=\x27\\<\x27\n",
  "\tRWORD=\x27\\>\x27\n",
  "fi\n",
  "\n",
  "__atomix_convert_bash_to_zsh() \x7b\n",
  "\tsed \\\n",
  "\t-e \x27s/declare -F/whence -w/\x27 \\\n",
  "\t-e \x27s/_get_comp_words_by_ref \"\\$@\"/_get_comp_words_by_ref \"\\$*\"/\x27 \\\n",
  "\t-e \x27s/local \\([a-zA-Z0-9_]*\\)=/local \\1; \\1=/\x27 \\\n",
  "\t-e \x27s/flags+=(\"\\(--.*\\)=\")/flags+=(\"\\1\"); two_word_flags+=(\"\\1\")/\x27 \\\n",
  "\t-e \x27s/must_have_one_flag+=(\"\\(--.*\\)=\")/must_have_one_flag+=(\"\\1\")/\x27 \\\n",
  "\t-e \"s/$\x7bLWORD\x7d_filedir$\x7bRWORD\x7d/__atomix_filedir/g\" \\\n",
  "\t-e \"s/$\x7bLWORD\x7d_get_comp_words_by_ref$\x7bRWORD\x7d/__atomix_get_comp_words_by_ref/g\" \\\n",
  "\t-e \"s/$\x7bLWORD\x7d__ltrim_colon_completions$\x7bRWORD\x7d/__atomix_ltrim_colon_completions/g\" \\\n",
  "\t-e \"s/$\x7bLWORD\x7dcompgen$\x7bRWORD\x7d/__atomix_compgen/g\" \\\n",
  "\t-e \"s/$\x7bLWORD\x7dcompopt$\x7bRWORD\x7d/__atomix_compopt/g\" \\\n",
  "\t-e \"s/$\x7bLWORD\x7ddeclare$\x7bRWORD\x7d/builtin declare/g\" \\\n",
  "\t-e \"s/\\\\\\$(type$\x7bRWORD\x7d/\\$(__atomix_type/g\" \\\n",
  "\t<<\x27BASH_COMPLETION_EOF\x27\n"]

/-- The literal `zsh_initialization`. -/
def zsh_initialization : String := String.join zsh_initialization_lines

/-- The lines of the literal assigned to zsh_tail in runCompletionZsh. -/
def zsh_tail_lines : List String := [
  "\n",
  "BASH_COMPLETION_EOF\n",
  "\x7d\n",
  "\n",
  "__atomix_bash_source <(__atomix_convert_bash_to_zsh)\n",
  "_complete atomix 2>/dev/null\n"]

/-- The literal `zsh_tail`. -/
def zsh_tail : String := String.join zsh_tail_lines

/-- Go `runCompletionZsh(out, cmd)`: head, initialization, the bash generator's text
(generated into a buffer, its error dropped), tail; the function returns nil. -/
def runCompletionZsh (cobra : Cobra) (out : Writer) (cmd : CommandTree) :
    Cmd (Option Error) := do
  out zsh_head
  out zsh_initialization
  let buf := (cobra.GenBashCompletion cmd).1
  out buf
  out zsh_tail
  pure none

/-- Go `runCompletionCommand(cmd, args)`. -/
def runCompletionCommand (cobra : Cobra) (cmd : Command) (args : List String) : Cmd Unit :=
  match args with
  | [] => Cmd.goPanic
  | shell :: _ =>
    if shell = "bash" then do
      match ← runCompletionBash cobra osStdout cmd.parent with
      | some err => ExitWithError ExitError err
      | none => pure ()
    else if shell = "zsh" then do
      match ← runCompletionZsh cobra osStdout cmd.parent with
      | some err => ExitWithError ExitError err
      | none => pure ()
    else
      ExitWithError ExitError ⟨"unsupported shell type " ++ shell⟩

/-! ## config.go -/

/-- Where viper looks for the configuration: the file set with `SetConfigFile`, or the
name set with `SetConfigName` searched in the paths added with `AddConfigPath`. -/
inductive ConfigSource where
  | file (path : String)
  | search (name : String) (paths : List String)
  deriving DecidableEq, Repr

/-- A flat key/value document: each key's value, `Value.nil` for a key without one. -/
abbrev Settings := String → Value

/-- Go `strings.ToLower` as viper applies it to every key it is given (letters outside
ASCII are left as they are). -/
def lowerKey (key : String) : String := String.mk (key.data.map Char.toLower)

/-- The viper store, external to the package: the source it reads and writes, the
settings read from the configuration file and the overrides given with `Set`.  Keys are
case-insensitive.  A key that contains the delimiter `.` addresses a nested document in
viper; the nesting is not modelled, such a key is treated like any other. -/
structure Viper where
  source : ConfigSource
  settings : Settings
  override : Settings

/-- The file system as viper meets it: the document found for a source, by lower-case
key (`none` when no file is present), the error a write-back runs into whatever its cause
(`none` when nothing stands in its way), and the error viper reports when a searched
configuration file is not found (`ConfigFileNotFoundError`). -/
structure Disk where
  document : ConfigSource → Option Settings
  writeError : Option Error
  notFound : Error

namespace Viper

/-- Go `viper.Get(key)`: the override of the key unless it is nil, else the value read
from the file, else nil. -/
def Get (v : Viper) (key : String) : Value :=
  match v.override (lowerKey key) with
  | .nil => v.settings (lowerKey key)
  | value => value

/-- Go `viper.Set(key, value)`: the override of the key becomes `value`. -/
def Set (v : Viper) (key : String) (value : Value) : Viper :=
  { v with override := fun k => if k = lowerKey key then value else v.override k }

/-- Go `viper.AllSettings()`: for every key the value `Get` finds. -/
def AllSettings (v : Viper) : Settings :=
  fun k =>
    match v.override k with
    | .nil => v.settings k
    | value => value

/-- Go `viper.ReadInConfig()`: load the document of the source when there is one; its
error is dropped by the caller, the store then stays as it was. -/
def ReadInConfig (v : Viper) (disk : Disk) : Viper :=
  match disk.document v.source with
  | some doc => { v with settings := doc }
  | none => v

/-- Go `viper.WriteConfig()`: the error met; or, for a searched name of which no file is
present, the not-found error; or all settings written back as the document of the
source. -/
def WriteConfig (v : Viper) (disk : Disk) : Option Error × Disk :=
  match disk.writeError with
  | some err => (some err, disk)
  | none =>
    match v.source, disk.document v.source with
    | .search _ _, none => (some disk.notFound, disk)
    | _, _ =>
      (none, { disk with
        document := fun src => if src = v.source then some v.AllSettings else disk.document src })

end Viper

/-- Go `initConfig()`, run by cobra before the handler: choose the source from the
`configFile` variable or the home directory, then read the configuration in. -/
def initConfig (configFile : String) (homedir : Except Error String) (disk : Disk) :
    Cmd Viper :=
  if configFile ≠ "" then
    pure (Viper.ReadInConfig ⟨.file configFile, fun _ => .nil, fun _ => .nil⟩ disk)
  else do
    let home ← (match homedir with
      | .error err => ExitWithError ExitError err
      | .ok home => pure home)
    pure (Viper.ReadInConfig
      ⟨.search "config" [home ++ "/.atomix", "/etc/atomix", "."], fun _ => .nil,
        fun _ => .nil⟩ disk)

/-- Go `runConfigGetCommand(cmd, args)`. -/
def runConfigGetCommand (viper : Viper) (args : List String) : Cmd Unit :=
  match args with
  | [] => Cmd.goPanic
  | key :: _ =>
    let value := viper.Get key
    ExitWithOutput [value]

/-- Go `runConfigSetCommand(cmd, args)`, with the file system it leaves behind. -/
def runConfigSetCommand (viper : Viper) (disk : Disk) (args : List String) :
    Cmd Unit × Disk :=
  match args with
  | key :: val :: _ =>
    let viper := viper.Set key (.str val)
    match viper.WriteConfig disk with
    | (some err, disk) => (ExitWithError ExitError err, disk)
    | (none, disk) =>
      let value := viper.Get key
      (ExitWithOutput [value], disk)
  | _ => (Cmd.goPanic, disk)

/-- Go `runConfigDeleteCommand(cmd, args)`, with the file system it leaves behind. -/
def runConfigDeleteCommand (viper : Viper) (disk : Disk) (args : List String) :
    Cmd Unit × Disk :=
  match args with
  | [] => (Cmd.goPanic, disk)
  | key :: _ =>
    let viper := viper.Set key .nil
    match viper.WriteConfig disk with
    | (some err, disk) => (ExitWithError ExitError err, disk)
    | (none, disk) =>
      let value := viper.Get key
      (ExitWithOutput [value], disk)

/-- The store a process holds once `initConfig` has run, when it has not exited. -/
def loadedConfig (configFile : String) (homedir : Except Error String) (disk : Disk) :
    Option Viper :=
  match (initConfig configFile homedir disk).outcome with
  | .ret viper => some viper
  | _ => none

/-- One run of `atomix config get <args>`: start-up, then the handler. -/
def configGet (configFile : String) (homedir : Except Error String) (disk : Disk)
    (args : List String) : Cmd Unit := do
  let viper ← initConfig configFile homedir disk
  runConfigGetCommand viper args

/-- One run of `atomix config set <args>`: start-up, then the handler; with the file
system the run leaves behind. -/
def configSet (configFile : String) (homedir : Except Error String) (disk : Disk)
    (args : List String) : Cmd Unit × Disk :=
  match loadedConfig configFile homedir disk with
  | some viper =>
    ((do let _ ← initConfig configFile homedir disk
         (runConfigSetCommand viper disk args).1),
     (runConfigSetCommand viper disk args).2)
  | none =>
    ((do let _ ← initConfig configFile homedir disk
         pure ()),
     disk)

/-- One run of `atomix config delete <args>`: start-up, then the handler; with the
file system the run leaves behind. -/
def configDelete (configFile : String) (homedir : Except Error String) (disk : Disk)
    (args : List String) : Cmd Unit × Disk :=
  match loadedConfig configFile homedir disk with
  | some viper =>
    ((do let _ ← initConfig configFile homedir disk
         (runConfigDeleteCommand viper disk args).1),
     (runConfigDeleteCommand viper disk args).2)
  | none =>
    ((do let _ ← initConfig configFile homedir disk
         pure ()),
     disk)

/-! ## The atomix client library and the helpers outside the six files -/

/-- The interface `set.Set` of the client library: the name of the set and the response
of the remote set to each call (`Except.error` for a non-nil `error`). -/
structure SetClient where
  Name : String
  Add : Context → String → Except Error Bool
  Contains : Context → String → Except Error Bool
  Remove : Context → String → Except Error Bool
  Len : Context → Except Error Int
  Clear : Context → Option Error
  Delete : Context → Option Error
  Close : Context → Option Error

/-- The database handle `getDatabase` returns. -/
structure Database where
  GetSet : Context → String → Except Error SetClient

/-- The interface `lock.Lock` of the client library. -/
structure LockClient where
  Name : String
  Lock : Context → Except Error Nat
  IsLocked : Context → List LockOption → Except Error Bool
  Unlock : Context → List LockOption → Except Error Bool
  Delete : Option Error
  Close : Option Error

/-- The type `client.PartitionGroup`: the fields `printGroup` reads and the lock lookup. -/
structure PartitionGroup where
  Name : String
  Namespace : String
  Partitions : Int
  PartitionSize : Int
  GetLock : Context → String → Except Error LockClient

/-- The type `client.Client`: the responses of the controller to the group calls. -/
structure Client where
  GetGroup : Context → String → Except Error PartitionGroup
  CreateGroup : Context → String → Int → Int → Option Protocol → Except Error PartitionGroup
  DeleteGroup : Context → String → Option Error
  GetGroups : Context → Except Error (List PartitionGroup)

/-- The functions of the package that the handlers call and that are defined outside
the six files, and the `text/tabwriter` layout; all taken as parameters.  A helper that
may end the process itself is a `Cmd`. -/
structure Env where
  getDatabase : Command → Cmd Database
  getTimeoutContext : Command → Context
  newTimeoutContext : Command → Context
  newGroupFromName : Command → String → Cmd PartitionGroup
  getPrimitiveName : String → String
  newClientFromEnv : Cmd Client
  newClientFromGroup : String → Cmd Client
  getGroupName : String → String
  getClientGroup : String
  tabwriter : String → String

/-- The cancel function `getTimeoutContext` returns together with the context. -/
def cancel (ctx : Context) : Cmd Unit := Cmd.emit (.cancel ctx)

/-! ## set.go -/

/-- Go `getSetName(cmd)`: the value of the `name` flag. -/
def getSetName (cmd : Command) : String := cmd.name

/-- Go `newSetFromName(cmd, name)`. -/
def newSetFromName (env : Env) (cmd : Command) (name : String) : Cmd SetClient := do
  let database ← env.getDatabase cmd
  let ctx := env.getTimeoutContext cmd
  Cmd.withDefer (cancel ctx) (do
    match ← Cmd.remote (.GetSet ctx name) (database.GetSet ctx name) with
    | .error err => ExitWithError ExitError err
    | .ok m => pure m)

/-- Go `runSetCreateCommand(cmd, args)`. -/
def runSetCreateCommand (env : Env) (cmd : Command) (args : List String) : Cmd Unit :=
  match args with
  | [] => Cmd.goPanic
  | name :: _ => do
    let set ← newSetFromName env cmd name
    let ctx := env.getTimeoutContext cmd
    Cmd.withDefer (cancel ctx) (do
      let _ ← Cmd.remote (.SetClose ctx) (set.Close ctx)
      ExitWithOutput [.str ("Created " ++ set.Name)])

/-- Go `runSetDeleteCommand(cmd, args)`. -/
def runSetDeleteCommand (env : Env) (cmd : Command) (args : List String) : Cmd Unit :=
  match args with
  | [] => Cmd.goPanic
  | name :: _ => do
    let set ← newSetFromName env cmd name
    let ctx := env.getTimeoutContext cmd
    Cmd.withDefer (cancel ctx) (do
      match ← Cmd.remote (.SetDelete ctx) (set.Delete ctx) with
      | some err => ExitWithError ExitError err
      | none => ExitWithOutput [.str ("Deleted " ++ set.Name)])

/-- Go `runSetAddCommand(cmd, args)`. -/
def runSetAddCommand (env : Env) (cmd : Command) (args : List String) : Cmd Unit := do
  let set ← newSetFromName env cmd (getSetName cmd)
  match args with
  | [] => Cmd.goPanic
  | value :: _ =>
    let ctx := env.getTimeoutContext cmd
    Cmd.withDefer (cancel ctx) (do
      match ← Cmd.remote (.SetAdd ctx value) (set.Add ctx value) with
      | .error err => ExitWithError ExitError err
      | .ok added => ExitWithOutput [.bool added])

/-- Go `runSetContainsCommand(cmd, args)`. -/
def runSetContainsCommand (env : Env) (cmd : Command) (args : List String) : Cmd Unit := do
  let set ← newSetFromName env cmd (getSetName cmd)
  match args with
  | [] => Cmd.goPanic
  | value :: _ =>
    let ctx := env.getTimeoutContext cmd
    Cmd.withDefer (cancel ctx) (do
      match ← Cmd.remote (.SetContains ctx value) (set.Contains ctx value) with
      | .error err => ExitWithError ExitError err
      | .ok contains => ExitWithOutput [.bool contains])

/-- Go `runSetRemoveCommand(cmd, args)`. -/
def runSetRemoveCommand (env : Env) (cmd : Command) (args : List String) : Cmd Unit := do
  let set ← newSetFromName env cmd (getSetName cmd)
  match args with
  | [] => Cmd.goPanic
  | value :: _ =>
    let ctx := env.getTimeoutContext cmd
    Cmd.withDefer (cancel ctx) (do
      match ← Cmd.remote (.SetRemove ctx value) (set.Remove ctx value) with
      | .error err => ExitWithError ExitError err
      | .ok removed => ExitWithOutput [.bool removed])

/-- Go `runSetSizeCommand(cmd, _)`. -/
def runSetSizeCommand (env : Env) (cmd : Command) (_ : List String) : Cmd Unit := do
  let set ← newSetFromName env cmd (getSetName cmd)
  let ctx := env.getTimeoutContext cmd
  Cmd.withDefer (cancel ctx) (do
    match ← Cmd.remote (.SetLen ctx) (set.Len ctx) with
    | .error err => ExitWithError ExitError err
    | .ok size => ExitWithOutput [.int size])

/-- Go `runSetClearCommand(cmd, _)`. -/
def runSetClearCommand (env : Env) (cmd : Command) (_ : List String) : Cmd Unit := do
  let set ← newSetFromName env cmd (getSetName cmd)
  let ctx := env.getTimeoutContext cmd
  Cmd.withDefer (cancel ctx) (do
    match ← Cmd.remote (.SetClear ctx) (set.Clear ctx) with
    | some err => ExitWithError ExitError err
    | none => ExitWithSuccess)

/-! ## lock.go -/

/-- Go `newLockFromName(cmd)`. -/
def newLockFromName (env : Env) (cmd : Command) : Cmd LockClient := do
  let name := cmd.name
  let group ← env.newGroupFromName cmd name
  let ctx := env.newTimeoutContext cmd
  match ← Cmd.remote (.GetLock ctx (env.getPrimitiveName name))
      (group.GetLock ctx (env.getPrimitiveName name)) with
  | .error err => ExitWithError ExitError err
  | .ok m => pure m

/-- Go `runLockCreateCommand(cmd, _)`. -/
def runLockCreateCommand (env : Env) (cmd : Command) (_ : List String) : Cmd Unit := do
  let lock ← newLockFromName env cmd
  let _ ← Cmd.remote .LockClose lock.Close
  ExitWithOutput [.str ("Created " ++ lock.Name)]

/-- Go `runLockDeleteCommand(cmd, _)`. -/
def runLockDeleteCommand (env : Env) (cmd : Command) (_ : List String) : Cmd Unit := do
  let lock ← newLockFromName env cmd
  match ← Cmd.remote .LockDelete lock.Delete with
  | some err => ExitWithError ExitError err
  | none => ExitWithOutput [.str ("Deleted " ++ lock.Name)]

/-- Go `runLockLockCommand(cmd, _)`. -/
def runLockLockCommand (env : Env) (cmd : Command) (_ : List String) : Cmd Unit := do
  let lock ← newLockFromName env cmd
  let ctx := env.newTimeoutContext cmd
  match ← Cmd.remote (.LockLock ctx) (lock.Lock ctx) with
  | .error err => ExitWithError ExitError err
  | .ok version => ExitWithOutput [.uint version]

/-- Go `runLockGetCommand(cmd, _)`. -/
def runLockGetCommand (env : Env) (cmd : Command) (_ : List String) : Cmd Unit := do
  let l ← newLockFromName env cmd
  let version := cmd.version
  if version = 0 then
    let ctx := env.newTimeoutContext cmd
    match ← Cmd.remote (.LockIsLocked ctx []) (l.IsLocked ctx []) with
    | .error err => ExitWithError ExitError err
    | .ok locked => ExitWithOutput [.bool locked]
  else
    let ctx := env.newTimeoutContext cmd
    match ← Cmd.remote (.LockIsLocked ctx [.IfVersion version])
        (l.IsLocked ctx [.IfVersion version]) with
    | .error err => ExitWithError ExitError err
    | .ok locked => ExitWithOutput [.bool locked]

/-- Go `runLockUnlockCommand(cmd, _)`. -/
def runLockUnlockCommand (env : Env) (cmd : Command) (_ : List String) : Cmd Unit := do
  let l ← newLockFromName env cmd
  let version := cmd.version
  if version = 0 then
    let ctx := env.newTimeoutContext cmd
    match ← Cmd.remote (.LockUnlock ctx []) (l.Unlock ctx []) with
    | .error err => ExitWithError ExitError err
    | .ok unlocked => ExitWithOutput [.bool unlocked]
  else
    let ctx := env.newTimeoutContext cmd
    match ← Cmd.remote (.LockUnlock ctx [.IfVersion version])
        (l.Unlock ctx [.IfVersion version]) with
    | .error err => ExitWithError ExitError err
    | .ok unlocked => ExitWithOutput [.bool unlocked]

/-! ## group.go -/

/-- The text `printGroups` hands to the tabwriter: the header line when asked for, then
one line per group, cells separated by tabs. -/
def groupsTable (groups : List PartitionGroup) (includeHeaders : Bool) : String :=
  (if includeHeaders then "NAME\tPARTITIONS\tSIZE\n" else "") ++
  String.join (groups.map fun group =>
    group.Name ++ "\t" ++ toString group.Partitions ++ "\t" ++
      toString group.PartitionSize ++ "\n")

/-- Go `printGroups(groups, includeHeaders)`: the table laid out by the tabwriter and
flushed to standard output. -/
def printGroups (env : Env) (groups : List PartitionGroup) (includeHeaders : Bool) :
    Cmd Unit :=
  Cmd.emit (.stdout (env.tabwriter (groupsTable groups includeHeaders)))

/-- Go `printGroup(group)`: four lines on standard output. -/
def printGroup (group : PartitionGroup) : Cmd Unit := do
  Cmd.emit (.stdout ("Name:            " ++ group.Name ++ "\n"))
  Cmd.emit (.stdout ("Namespace:       " ++ group.Namespace ++ "\n"))
  Cmd.emit (.stdout ("Partitions:      " ++ toString group.Partitions ++ "\n"))
  Cmd.emit (.stdout ("Partitions Size: " ++ toString group.PartitionSize ++ "\n"))

/-- Go `runGroupsCommand(cmd, _)`. -/
def runGroupsCommand (env : Env) (cmd : Command) (_ : List String) : Cmd Unit := do
  let client ← env.newClientFromEnv
  let ctx := env.newTimeoutContext cmd
  match ← Cmd.remote (.GetGroups ctx) (client.GetGroups ctx) with
  | .error err => ExitWithError ExitError err
  | .ok groups =>
    let noHeaders := cmd.noHeaders
    printGroups env groups (!noHeaders)
    ExitWithSuccess

/-- Go `runGroupGetCommand(cmd, args)`. -/
def runGroupGetCommand (env : Env) (cmd : Command) (args : List String) : Cmd Unit := do
  let name := (match args with
    | [] => env.getClientGroup
    | name :: _ => name)
  let client ← env.newClientFromGroup name
  let ctx := env.newTimeoutContext cmd
  match ← Cmd.remote (.GetGroup ctx (env.getGroupName name))
      (client.GetGroup ctx (env.getGroupName name)) with
  | .error err => ExitWithError ExitError err
  | .ok group =>
    printGroup group
    ExitWithSuccess

/-- The `switch protocolName` of `runGroupCreateCommand`: the descriptor for `raft` and
for `log`, and nil for every other name. -/
def protocolOf (protocolName : String) : Option Protocol :=
  if protocolName = "raft" then some .raft
  else if protocolName = "log" then some .log
  else none

/-- Go `runGroupCreateCommand(cmd, args)`. -/
def runGroupCreateCommand (env : Env) (cmd : Command) (args : List String) : Cmd Unit :=
  match args with
  | [] => Cmd.goPanic
  | name :: _ => do
    let client ← env.newClientFromGroup name
    let partitions := cmd.partitions
    let partitionSize := cmd.partitionSize
    let protocolName := cmd.protocol
    let protocol := protocolOf protocolName
    let ctx := env.newTimeoutContext cmd
    match ← Cmd.remote
        (.CreateGroup ctx (env.getGroupName name) partitions partitionSize protocol)
        (client.CreateGroup ctx (env.getGroupName name) partitions partitionSize protocol) with
    | .error err => ExitWithError ExitError err
    | .ok group =>
      printGroup group
      ExitWithSuccess

/-- Go `runGroupDeleteCommand(cmd, args)`. -/
def runGroupDeleteCommand (env : Env) (cmd : Command) (args : List String) : Cmd Unit :=
  match args with
  | [] => Cmd.goPanic
  | name :: _ => do
    let client ← env.newClientFromGroup name
    let ctx := env.newTimeoutContext cmd
    match ← Cmd.remote (.DeleteGroup ctx (env.getGroupName name))
        (client.DeleteGroup ctx (env.getGroupName name)) with
    | some err => ExitWithError ExitError err
    | none => ExitWithSuccess

/-! ## Vocabulary of the statements -/

/-- The run `r` ends in an error report: after the events of the helper and the events
`own` of the handler, which write nothing to standard output, it writes `Error:` and the
message of `e` to standard error and exits with code 1. -/
def failsWith (r : Cmd Unit) (helper own : List Event) (e : Error) : Prop :=
  r.trace = helper ++ own ++ [.stderr ("Error: " ++ e.msg ++ "\n")] ∧
  Cmd.stdoutOf own = "" ∧ r.outcome = .exit 1

/-- The event a handler ends with once its remote call has answered: the error on
standard error, or the value on standard output. -/
def answerEvent (response : Except Error Value) : Event :=
  match response with
  | .error e => .stderr ("Error: " ++ e.msg ++ "\n")
  | .ok v => .stdout (v.format ++ "\n")

/-- The exit code a handler ends with once its remote call has answered. -/
def answerCode (response : Except Error Value) : Int :=
  match response with
  | .error _ => 1
  | .ok _ => 0

/-- The contexts whose cancel function is invoked in a trace, in order. -/
def cancelsOf : List Event → List Context
  | [] => []
  | .cancel ctx :: rest => ctx :: cancelsOf rest
  | _ :: rest => cancelsOf rest

/-- The number of `Close` calls on a set or lock client in a trace. -/
def closesOf : List Event → Nat
  | [] => 0
  | .call (.SetClose _) :: rest => closesOf rest + 1
  | .call .LockClose :: rest => closesOf rest + 1
  | _ :: rest => closesOf rest

/-! ## Sample collaborators, to run the handlers on concrete inputs -/

/-- A file system without any configuration file. -/
def emptyDisk : Disk :=
  ⟨fun _ => none, none, ⟨"Config File \"config\" Not Found"⟩⟩

/-- A file system whose configuration file holds a value for `controller` and nothing
else, and accepts writes. -/
def storedDisk : Disk :=
  ⟨fun _ => some (fun k => if k = "controller" then .str "atomix-controller:5679" else .nil),
    none, ⟨"Config File \"config\" Not Found"⟩⟩

/-- A bash generator that writes a one-line script and reports no error. -/
def sampleCobra : Cobra := ⟨fun _ => ("# bash completion for atomix\n", none)⟩

/-- A remote set that accepts every call. -/
def sampleSet : SetClient where
  Name := "default.s1"
  Add := fun _ _ => .ok true
  Contains := fun _ _ => .ok true
  Remove := fun _ _ => .ok true
  Len := fun _ => .ok 1
  Clear := fun _ => none
  Delete := fun _ => none
  Close := fun _ => none

/-- A remote lock that accepts every call. -/
def sampleLock : LockClient where
  Name := "default.mylock"
  Lock := fun _ => .ok 1
  IsLocked := fun _ _ => .ok true
  Unlock := fun _ _ => .ok true
  Delete := none
  Close := none

/-- A partition group with the given name and sizes. -/
def sampleGroup (name : String) (partitions partitionSize : Int) : PartitionGroup where
  Name := name
  Namespace := "default"
  Partitions := partitions
  PartitionSize := partitionSize
  GetLock := fun _ _ => .ok sampleLock

/-- A controller that accepts every call and creates groups as requested. -/
def sampleClient : Client where
  GetGroup := fun _ name => .ok (sampleGroup name 1 1)
  CreateGroup := fun _ name partitions partitionSize _ =>
    .ok (sampleGroup name partitions partitionSize)
  DeleteGroup := fun _ _ => none
  GetGroups := fun _ => .ok []

/-- Helpers that reach the accepting collaborators without printing anything. -/
def sampleEnv : Env where
  getDatabase := fun _ => pure ⟨fun _ _ => .ok sampleSet⟩
  getTimeoutContext := fun cmd => ⟨cmd.timeout⟩
  newTimeoutContext := fun cmd => ⟨cmd.timeout⟩
  newGroupFromName := fun _ name => pure (sampleGroup name 1 1)
  getPrimitiveName := fun name => name
  newClientFromEnv := pure sampleClient
  newClientFromGroup := fun _ => pure sampleClient
  getGroupName := fun name => name
  getClientGroup := "default"
  tabwriter := fun text => text

/-- A remote set that refuses every operation with the error `e`. -/
def refusingSet (e : Error) : SetClient where
  Name := "default.s1"
  Add := fun _ _ => .error e
  Contains := fun _ _ => .error e
  Remove := fun _ _ => .error e
  Len := fun _ => .error e
  Clear := fun _ => some e
  Delete := fun _ => some e
  Close := fun _ => some e

/-- Helpers that reach a set refusing every operation with the error `e`. -/
def refusingEnv (e : Error) : Env :=
  { sampleEnv with getDatabase := fun _ => pure ⟨fun _ _ => .ok (refusingSet e)⟩ }

/-- Helpers that reach a database whose set lookup fails with the error `e`. -/
def unreachableEnv (e : Error) : Env :=
  { sampleEnv with getDatabase := fun _ => pure ⟨fun _ _ => .error e⟩ }

/-! # Theorems -/

/-! ## Helper lemmas -/

theorem Sprintln_error (m : String) :
    Sprintln [.str "Error:", .str m] = "Error: " ++ m ++ "\n" := by
  simp [Sprintln, Value.format, String.intercalate, String.intercalate.go]

theorem Sprintln_single (v : Value) : Sprintln [v] = v.format ++ "\n" := by
  simp [Sprintln, String.intercalate, String.intercalate.go]

/-! ## completion.go -/

/-- C1: for every bash generator and every command tree, `runCompletionZsh` makes four
writes, in this order: the head `#compdef atomix`, the initialization literal, the text
of the bash generator for that command tree, and the tail literal; the text written is
their concatenation, and the three literals are the fixed texts spelled out here, line
by line, which do not depend on the command tree: the initialization literal ends with
the `sed` invocation and the heredoc opener, the tail closes the heredoc, sources the
converted script and calls `_complete atomix`. -/
theorem runCompletionZsh_output (cobra : Cobra) (cmd : CommandTree) :
    (runCompletionZsh cobra osStdout cmd).trace =
      [.stdout zsh_head, .stdout zsh_initialization,
       .stdout (cobra.GenBashCompletion cmd).1, .stdout zsh_tail] ∧
    (runCompletionZsh cobra osStdout cmd).stdoutText =
      zsh_head ++ zsh_initialization ++ (cobra.GenBashCompletion cmd).1 ++ zsh_tail ∧
    zsh_head = "#compdef atomix\n" ∧
    zsh_initialization = String.join [
    "\n",
    "__atomix_bash_source() \x7b\n",
    "\talias shopt=\x27:\x27\n",
    "\talias _expand=_bash_expand\n",
    "\talias _complete=_bash_comp\n",
    "\temulate -L sh\n",
    "\tsetopt kshglob noshglob braceexpand\n",
    "\n",
    "\tsource \"$@\"\n",
    "\x7d\n",
    "\n",
    "__atomix_type() \x7b\n",
    "\t# -t is not supported by zsh\n",
    "\tif [ \"$1\" == \"-t\" ]; then\n",
    "\t\tshift\n",
    "\n",
    "\t\t# fake Bash 4 to disable \"complete -o nospace\". Instead\n",
    "\t\t# \"compopt +-o nospace\" is used in the code to toggle trailing\n",
    "\t\t# spaces. We don\x27t support that, but leave trailing spaces on\n",
    "\t\t# all the time\n",
    "\t\tif [ \"$1\" = \"__atomix_compopt\" ]; then\n",
    "\t\t\techo builtin\n",
    "\t\t\treturn 0\n",
    "\t\tfi\n",
    "\tfi\n",
    "\ttype \"$@\"\n",
    "\x7d\n",
    "\n",
    "__atomix_compgen() \x7b\n",
    "\tlocal completions w\n",
    "\tcompletions=( $(compgen \"$@\") ) || return $?\n",
    "\n",
    "\t# filter by given word as prefix\n",
    "\twhile [[ \"$1\" = -* && \"$1\" != -- ]]; do\n",
    "\t\tshift\n",
    "\t\tshift\n",
    "\tdone\n",
    "\tif [[ \"$1\" == -- ]]; then\n",
    "\t\tshift\n",
    "\tfi\n",
    "\tfor w in \"$\x7bcompletions[@]\x7d\"; do\n",
    "\t\tif [[ \"$\x7bw\x7d\" = \"$1\"* ]]; then\n",
    "\t\t\techo \"$\x7bw\x7d\"\n",
    "\t\tfi\n",
    "\tdone\n",
    "\x7d\n",
    "\n",
    "__atomix_compopt() \x7b\n",
    "\ttrue # don\x27t do anything. Not supported by bashcompinit in zsh\n",
    "\x7d\n",
    "\n",
    "__atomix_ltrim_colon_completions()\n",
    "\x7b\n",
    "\tif [[ \"$1\" == *:* && \"$COMP_WORDBREAKS\" == *:* ]]; then\n",
    "\t\t# Remove colon-word prefix from COMPREPLY items\n",
    "\t\tlocal colon_word=$\x7b1%$\x7b1##*:\x7d\x7d\n",
    "\t\tlocal i=$\x7b#COMPREPLY[*]\x7d\n",
    "\t\twhile [[ $((--i)) -ge 0 ]]; do\n",
    "\t\t\tCOMPREPLY[$i]=$\x7bCOMPREPLY[$i]#\"$colon_word\"\x7d\n",
    "\t\tdone\n",
    "\tfi\n",
    "\x7d\n",
    "\n",
    "__atomix_get_comp_words_by_ref() \x7b\n",
    "\tcur=\"$\x7bCOMP_WORDS[COMP_CWORD]\x7d\"\n",
    "\tprev=\"$\x7bCOMP_WORDS[$\x7bCOMP_CWORD\x7d-1]\x7d\"\n",
    "\twords=(\"$\x7bCOMP_WORDS[@]\x7d\")\n",
    "\tcword=(\"$\x7bCOMP_CWORD[@]\x7d\")\n",
    "\x7d\n",
    "\n",
    "__atomix_filedir() \x7b\n",
    "\tlocal RET OLD_IFS w qw\n",
    "\n",
    "\t__debug \"_filedir $@ cur=$cur\"\n",
    "\tif [[ \"$1\" = \\~* ]]; then\n",
    "\t\t# somehow does not work. Maybe, zsh does not call this at all\n",
    "\t\teval echo \"$1\"\n",
    "\t\treturn 0\n",
    "\tfi\n",
    "\n",
    "\tOLD_IFS=\"$IFS\"\n",
    "\tIFS=$\x27\\n\x27\n",
    "\tif [ \"$1\" = \"-d\" ]; then\n",
    "\t\tshift\n",
    "\t\tRET=( $(compgen -d) )\n",
    "\telse\n",
    "\t\tRET=( $(compgen -f) )\n",
    "\tfi\n",
    "\tIFS=\"$OLD_IFS\"\n",
    "\n",
    "\tIFS=\",\" __debug \"RET=$\x7bRET[@]\x7d len=$\x7b#RET[@]\x7d\"\n",
    "\n",
    "\tfor w in $\x7bRET[@]\x7d; do\n",
    "\t\tif [[ ! \"$\x7bw\x7d\" = \"$\x7bcur\x7d\"* ]]; then\n",
    "\t\t\tcontinue\n",
    "\t\tfi\n",
    "\t\tif eval \"[[ \\\"\\$\x7bw\x7d\\\" = *.$1 || -d \\\"\\$\x7bw\x7d\\\" ]]\"; then\n",
    "\t\t\tqw=\"$(__atomix_quote \"$\x7bw\x7d\")\"\n",
    "\t\t\tif [ -d \"$\x7bw\x7d\" ]; then\n",
    "\t\t\t\tCOMPREPLY+=(\"$\x7bqw\x7d/\")\n",
    "\t\t\telse\n",
    "\t\t\t\tCOMPREPLY+=(\"$\x7bqw\x7d\")\n",
    "\t\t\tfi\n",
    "\t\tfi\n",
    "\tdone\n",
    "\x7d\n",
    "\n",
    "__atomix_quote() \x7b\n",
    "    if [[ $1 == \\\x27* || $1 == \\\"* ]]; then\n",
    "        # Leave out first character\n",
    "        printf %q \"$\x7b1:1\x7d\"\n",
    "    else\n",
    "    \tprintf %q \"$1\"\n",
    "    fi\n",
    "\x7d\n",
    "\n",
    "autoload -U +X bashcompinit && bashcompinit\n",
    "\n",
    "# use word boundary patterns for BSD or GNU sed\n",
    "LWORD=\x27[[:<:]]\x27\n",
    "RWORD=\x27[[:>:]]\x27\n",
    "if sed --help 2>&1 | grep -q GNU; then\n",
    "\tLWORD=\x27\\<\x27\n",
    "\tRWORD=\x27\\>\x27\n",
    "fi\n",
    "\n",
    "__atomix_convert_bash_to_zsh() \x7b\n",
    "\tsed \\\n",
    "\t-e \x27s/declare -F/whence -w/\x27 \\\n",
    "\t-e \x27s/_get_comp_words_by_ref \"\\$@\"/_get_comp_words_by_ref \"\\$*\"/\x27 \\\n",
    "\t-e \x27s/local \\([a-zA-Z0-9_]*\\)=/local \\1; \\1=/\x27 \\\n",
    "\t-e \x27s/flags+=(\"\\(--.*\\)=\")/flags+=(\"\\1\"); two_word_flags+=(\"\\1\")/\x27 \\\n",
    "\t-e \x27s/must_have_one_flag+=(\"\\(--.*\\)=\")/must_have_one_flag+=(\"\\1\")/\x27 \\\n",
    "\t-e \"s/$\x7bLWORD\x7d_filedir$\x7bRWORD\x7d/__atomix_filedir/g\" \\\n",
    "\t-e \"s/$\x7bLWORD\x7d_get_comp_words_by_ref$\x7bRWORD\x7d/__atomix_get_comp_words_by_ref/g\" \\\n",
    "\t-e \"s/$\x7bLWORD\x7d__ltrim_colon_completions$\x7bRWORD\x7d/__atomix_ltrim_colon_completions/g\" \\\n",
    "\t-e \"s/$\x7bLWORD\x7dcompgen$\x7bRWORD\x7d/__atomix_compgen/g\" \\\n",
    "\t-e \"s/$\x7bLWORD\x7dcompopt$\x7bRWORD\x7d/__atomix_compopt/g\" \\\n",
    "\t-e \"s/$\x7bLWORD\x7ddeclare$\x7bRWORD\x7d/builtin declare/g\" \\\n",
    "\t-e \"s/\\\\\\$(type$\x7bRWORD\x7d/\\$(__atomix_type/g\" \\\n",
    "\t<<\x27BASH_COMPLETION_EOF\x27\n"] ∧
    zsh_tail = "\nBASH_COMPLETION_EOF\n\x7d\n\n" ++
      "__atomix_bash_source <(__atomix_convert_bash_to_zsh)\n" ++
      "_complete atomix 2>/dev/null\n" := by
  have h : (runCompletionZsh cobra osStdout cmd).trace =
      [.stdout zsh_head, .stdout zsh_initialization,
       .stdout (cobra.GenBashCompletion cmd).1, .stdout zsh_tail] := rfl
  refine ⟨h, ?_, rfl, rfl, rfl⟩
  simp [Cmd.stdoutText, h, Cmd.stdoutOf, String.append_assoc]

/-- C2: for every argument `s` other than `bash` and `zsh`, `runCompletionCommand`
writes nothing to standard output, writes `Error: unsupported shell type ` followed by
`s` to standard error and exits with code 1; for `bash` standard output receives exactly
the text of the bash generator for the parent command, and for `zsh` exactly what
`runCompletionZsh` writes for the parent command. -/
theorem runCompletionCommand_dispatch (cobra : Cobra) (cmd : Command) (s : String)
    (hb : s ≠ "bash") (hz : s ≠ "zsh") :
    ((runCompletionCommand cobra cmd [s]).trace =
        [.stderr ("Error: " ++ ("unsupported shell type " ++ s) ++ "\n")] ∧
      (runCompletionCommand cobra cmd [s]).stdoutText = "" ∧
      (runCompletionCommand cobra cmd [s]).outcome = .exit 1) ∧
    (runCompletionCommand cobra cmd ["bash"]).stdoutText =
      (cobra.GenBashCompletion cmd.parent).1 ∧
    (runCompletionCommand cobra cmd ["zsh"]).stdoutText =
      (runCompletionZsh cobra osStdout cmd.parent).stdoutText := by
  refine ⟨?_, ?_, ?_⟩
  · simp [runCompletionCommand, hb, hz, ExitWithError, bind, Cmd.bind, Cmd.emit, Cmd.osExit,
      Sprintln_error, Cmd.stdoutText, Cmd.stdoutOf, ExitError]
  · rcases h : cobra.GenBashCompletion cmd.parent with ⟨text, err⟩
    cases err <;>
      simp [runCompletionCommand, runCompletionBash, h, osStdout, ExitWithError, bind,
        Cmd.bind, pure, Cmd.pure, Cmd.emit, Cmd.osExit, Cmd.stdoutText, Cmd.stdoutOf]
  · simp [runCompletionCommand, runCompletionZsh, osStdout, ExitWithError, bind, Cmd.bind,
      pure, Cmd.pure, Cmd.emit, Cmd.osExit, Cmd.stdoutText, Cmd.stdoutOf]

/-- Witness of C2: `atomix completion fish`. -/
theorem runCompletionCommand_dispatch_witness :
    (runCompletionCommand sampleCobra {} ["fish"]).trace =
        [.stderr "Error: unsupported shell type fish\n"] ∧
    (runCompletionCommand sampleCobra {} ["fish"]).stdoutText = "" ∧
    (runCompletionCommand sampleCobra {} ["fish"]).outcome = .exit 1 :=
  (runCompletionCommand_dispatch sampleCobra {} "fish" (by decide) (by decide)).1

/-! ## output.go -/

/-- C3: the exit-code constants have the values 0, 1, 2, 3, 4, 5, 6 and 128;
`ExitWithOutput` and `ExitWithSuccess` always end the process with code 0, and
`ExitWithError(code, err)` ends it with exactly `code`. -/
theorem exit_codes_taxonomy :
    ExitSuccess = 0 ∧ ExitError = 1 ∧ ExitBadConnection = 2 ∧ ExitInvalidInput = 3 ∧
    ExitBadFeature = 4 ∧ ExitInterrupted = 5 ∧ ExitIO = 6 ∧ ExitBadArgs = 128 ∧
    (∀ (α : Type) (output : List Value), (ExitWithOutput output : Cmd α).outcome = .exit 0) ∧
    (∀ (α : Type), (ExitWithSuccess : Cmd α).outcome = .exit 0) ∧
    (∀ (α : Type) (code : Int) (err : Error),
      (ExitWithError code err : Cmd α).outcome = .exit code) := by
  refine ⟨rfl, rfl, rfl, rfl, rfl, rfl, rfl, rfl, ?_, ?_, ?_⟩
  · intro α output; rfl
  · intro α; rfl
  · intro α code err; rfl

/-! ## config.go -/

/-- After a `config set k v` that succeeded (exit code 0), the command has printed `v`,
and a following `config get k` finds `v` in the store, prints it and exits with code 0. -/
theorem config_set_then_get (configFile home : String) (disk : Disk) (k v : String)
    (hok : (configSet configFile (.ok home) disk [k, v]).1.outcome = .exit 0) :
    (configSet configFile (.ok home) disk [k, v]).1.stdoutText = v ++ "\n" ∧
    (loadedConfig configFile (.ok home)
      (configSet configFile (.ok home) disk [k, v]).2).map (fun s => s.Get k) =
        some (.str v) ∧
    (configGet configFile (.ok home)
      (configSet configFile (.ok home) disk [k, v]).2 [k]).stdoutText = v ++ "\n" ∧
    (configGet configFile (.ok home)
      (configSet configFile (.ok home) disk [k, v]).2 [k]).outcome = .exit 0 := by
  by_cases hc : configFile = ""
  · cases hw : disk.writeError <;>
    cases hd : disk.document (.search "config" [home ++ "/.atomix", "/etc/atomix", "."]) <;>
      simp_all [configSet, configGet, loadedConfig, initConfig,
        runConfigSetCommand, runConfigGetCommand, Viper.Set, Viper.Get, Viper.AllSettings,
        Viper.WriteConfig, Viper.ReadInConfig, bind, Cmd.bind, pure, Cmd.pure,
        Cmd.emit, Cmd.osExit, ExitWithOutput, ExitWithError, Sprintln_single, Value.format,
        Cmd.stdoutText, Cmd.stdoutOf, ExitSuccess, ExitError]
  · cases hw : disk.writeError <;>
    cases hd : disk.document (.file configFile) <;>
      simp_all [configSet, configGet, loadedConfig, initConfig,
        runConfigSetCommand, runConfigGetCommand, Viper.Set, Viper.Get, Viper.AllSettings,
        Viper.WriteConfig, Viper.ReadInConfig, bind, Cmd.bind, pure, Cmd.pure,
        Cmd.emit, Cmd.osExit, ExitWithOutput, ExitWithError, Sprintln_single, Value.format,
        Cmd.stdoutText, Cmd.stdoutOf, ExitSuccess, ExitError]

/-- C4, the code at the failing input: on a configuration file that holds a value for
`controller`, `config set controller localhost:5679` prints the new value and a
following `config get controller` prints it too; but `config delete controller` prints
the stored value, exits 0 and leaves it in the file, because viper skips the nil
override, so the following `config get controller` prints the stored value again and not
an absent one. -/
theorem config_delete_keeps_value :
    ((configSet "" (.ok "/root") storedDisk ["controller", "localhost:5679"]).1.stdoutText =
        "localhost:5679\n" ∧
      (configSet "" (.ok "/root") storedDisk ["controller", "localhost:5679"]).1.outcome =
        .exit 0 ∧
      (configGet "" (.ok "/root")
        (configSet "" (.ok "/root") storedDisk ["controller", "localhost:5679"]).2
        ["controller"]).stdoutText = "localhost:5679\n") ∧
    ((configDelete "" (.ok "/root") storedDisk ["controller"]).1.stdoutText =
        "atomix-controller:5679\n" ∧
      (configDelete "" (.ok "/root") storedDisk ["controller"]).1.outcome = .exit 0 ∧
      (loadedConfig "" (.ok "/root")
        (configDelete "" (.ok "/root") storedDisk ["controller"]).2).map
          (fun s => s.Get "controller") = some (.str "atomix-controller:5679") ∧
      (configGet "" (.ok "/root")
        (configDelete "" (.ok "/root") storedDisk ["controller"]).2
        ["controller"]).stdoutText = "atomix-controller:5679\n" ∧
      (configGet "" (.ok "/root")
        (configDelete "" (.ok "/root") storedDisk ["controller"]).2
        ["controller"]).outcome = .exit 0) := by
  decide

/-- C5, the claim as stated fails: with no config file present, `config get controller`
does not print an empty value; it prints `<nil>`. -/
theorem configGet_no_file_prints_nil :
    (configGet "" (.ok "/root") emptyDisk ["controller"]).stdoutText = "<nil>\n" ∧
    (configGet "" (.ok "/root") emptyDisk ["controller"]).stdoutText ≠ "\n" ∧
    (configGet "" (.ok "/root") emptyDisk ["controller"]).stdoutText ≠ "" := by
  decide

/-- C5, amended: for every key with no stored value, `runConfigGetCommand` writes the
rendering of the nil value, `<nil>` and a newline, to standard output, writes nothing to
standard error and exits with code 0; so does a whole run of `config get` for any key
when no config file is present. -/
theorem runConfigGetCommand_absent (viper : Viper) (key : String) (rest : List String)
    (h : viper.Get key = .nil) :
    ((runConfigGetCommand viper (key :: rest)).trace = [.stdout "<nil>\n"] ∧
      (runConfigGetCommand viper (key :: rest)).outcome = .exit 0) ∧
    (∀ (configFile home : String) (disk : Disk), (∀ src, disk.document src = none) →
      (configGet configFile (.ok home) disk (key :: rest)).trace = [.stdout "<nil>\n"] ∧
      (configGet configFile (.ok home) disk (key :: rest)).outcome = .exit 0) := by
  constructor
  · simp [runConfigGetCommand, h, ExitWithOutput, Sprintln_single, Value.format, bind,
      Cmd.bind, Cmd.emit, Cmd.osExit, ExitSuccess]
  · intro configFile home disk hd
    by_cases hc : configFile = "" <;>
      simp [configGet, initConfig, hc, hd, runConfigGetCommand, Viper.Get,
        Viper.ReadInConfig, bind, Cmd.bind, pure, Cmd.pure, Cmd.emit, Cmd.osExit,
        ExitWithOutput, Sprintln_single, Value.format, ExitSuccess]

/-- Witness of C5 amended: `config get controller` on a store without a value for it. -/
theorem runConfigGetCommand_absent_witness :
    (runConfigGetCommand ⟨.file "config.yaml", fun _ => .nil, fun _ => .nil⟩ ["controller"]).trace =
      [.stdout "<nil>\n"] ∧
    (runConfigGetCommand ⟨.file "config.yaml", fun _ => .nil, fun _ => .nil⟩ ["controller"]).outcome =
      .exit 0 :=
  (runConfigGetCommand_absent ⟨.file "config.yaml", fun _ => .nil, fun _ => .nil⟩ "controller" [] rfl).1

theorem newSetFromName_eq (env : Env) (cmd : Command) (name : String) (db : Database)
    (hdb : (env.getDatabase cmd).outcome = .ret db) :
    newSetFromName env cmd name =
      match db.GetSet (env.getTimeoutContext cmd) name with
      | .error e =>
        ⟨(env.getDatabase cmd).trace ++
          [.call (.GetSet (env.getTimeoutContext cmd) name),
           .stderr ("Error: " ++ e.msg ++ "\n")], .exit 1⟩
      | .ok s =>
        ⟨(env.getDatabase cmd).trace ++
          [.call (.GetSet (env.getTimeoutContext cmd) name),
           .cancel (env.getTimeoutContext cmd)], .ret s⟩ := by
  cases h : db.GetSet (env.getTimeoutContext cmd) name <;>
    simp [newSetFromName, hdb, h, bind, Cmd.bind, pure, Cmd.pure, Cmd.remote, Cmd.withDefer,
      cancel, Cmd.emit, Cmd.osExit, ExitWithError, Sprintln_error, ExitError]

theorem newLockFromName_eq (env : Env) (cmd : Command) (g : PartitionGroup)
    (hg : (env.newGroupFromName cmd cmd.name).outcome = .ret g) :
    newLockFromName env cmd =
      match g.GetLock (env.newTimeoutContext cmd) (env.getPrimitiveName cmd.name) with
      | .error e =>
        ⟨(env.newGroupFromName cmd cmd.name).trace ++
          [.call (.GetLock (env.newTimeoutContext cmd) (env.getPrimitiveName cmd.name)),
           .stderr ("Error: " ++ e.msg ++ "\n")], .exit 1⟩
      | .ok l =>
        ⟨(env.newGroupFromName cmd cmd.name).trace ++
          [.call (.GetLock (env.newTimeoutContext cmd) (env.getPrimitiveName cmd.name))],
          .ret l⟩ := by
  cases h : g.GetLock (env.newTimeoutContext cmd) (env.getPrimitiveName cmd.name) <;>
    simp [newLockFromName, hg, h, bind, Cmd.bind, pure, Cmd.pure, Cmd.remote,
      Cmd.emit, Cmd.osExit, ExitWithError, Sprintln_error, ExitError]

/-- C7, the claim as stated fails: `set add foo` and `lock lock` without a name pass the
empty name to `GetSet` and `GetLock`, and end with exit code 0, not 3. -/
theorem empty_name_reaches_remote :
    (runSetAddCommand sampleEnv {} ["foo"]).calls =
      [.GetSet ⟨15000000000⟩ "", .SetAdd ⟨15000000000⟩ "foo"] ∧
    (runSetAddCommand sampleEnv {} ["foo"]).outcome = .exit 0 ∧
    (runSetAddCommand sampleEnv {} ["foo"]).outcome ≠ .exit ExitInvalidInput ∧
    (runLockLockCommand sampleEnv {} []).calls =
      [.GetLock ⟨15000000000⟩ "", .LockLock ⟨15000000000⟩] ∧
    (runLockLockCommand sampleEnv {} []).outcome = .exit 0 ∧
    (runLockLockCommand sampleEnv {} []).outcome ≠ .exit ExitInvalidInput := by
  decide

/-- C7, amended: when the name is empty, the set verbs that read it from `--name` (add,
contains, remove, size, clear) and the lock verbs do not reject it: once the helper
(`getDatabase`, `newGroupFromName`) has returned, the empty name is passed to `GetSet`,
and for a lock through `getPrimitiveName` to `GetLock`, and the command ends with exit
code 0 or 1, never 3. -/
theorem empty_name_is_passed_on (env : Env) (cmd : Command) (hn : cmd.name = "") :
    (∀ db, (env.getDatabase cmd).outcome = .ret db →
      ∀ (value : String) (rest : List String),
      ∀ h ∈ [runSetAddCommand, runSetContainsCommand, runSetRemoveCommand,
        runSetSizeCommand, runSetClearCommand],
        (∃ tail, (h env cmd (value :: rest)).trace = (env.getDatabase cmd).trace ++
          .call (.GetSet (env.getTimeoutContext cmd) "") :: tail) ∧
        ((h env cmd (value :: rest)).outcome = .exit 0 ∨
          (h env cmd (value :: rest)).outcome = .exit 1)) ∧
    (∀ g, (env.newGroupFromName cmd "").outcome = .ret g →
      ∀ (args : List String),
      ∀ h ∈ [runLockCreateCommand, runLockDeleteCommand, runLockLockCommand,
        runLockGetCommand, runLockUnlockCommand],
        (∃ tail, (h env cmd args).trace = (env.newGroupFromName cmd "").trace ++
          .call (.GetLock (env.newTimeoutContext cmd) (env.getPrimitiveName "")) :: tail) ∧
        ((h env cmd args).outcome = .exit 0 ∨ (h env cmd args).outcome = .exit 1)) := by
  constructor
  · intro db hdb value rest h hh
    have key := newSetFromName_eq env cmd "" db hdb
    simp only [List.mem_cons, List.mem_singleton, List.not_mem_nil, or_false] at hh
    rcases hh with rfl | rfl | rfl | rfl | rfl
    · cases h1 : db.GetSet (env.getTimeoutContext cmd) "" with
      | error e => simp [runSetAddCommand, getSetName, hn, key, h1, bind, Cmd.bind]
      | ok s =>
        cases h2 : s.Add (env.getTimeoutContext cmd) value <;>
          simp [runSetAddCommand, getSetName, hn, key, h1, h2, bind, Cmd.bind, pure, Cmd.pure,
            Cmd.remote, Cmd.withDefer, cancel, Cmd.emit, Cmd.osExit, ExitWithError,
            ExitWithOutput, ExitWithSuccess, ExitError, ExitSuccess]
    · cases h1 : db.GetSet (env.getTimeoutContext cmd) "" with
      | error e => simp [runSetContainsCommand, getSetName, hn, key, h1, bind, Cmd.bind]
      | ok s =>
        cases h2 : s.Contains (env.getTimeoutContext cmd) value <;>
          simp [runSetContainsCommand, getSetName, hn, key, h1, h2, bind, Cmd.bind, pure, Cmd.pure,
            Cmd.remote, Cmd.withDefer, cancel, Cmd.emit, Cmd.osExit, ExitWithError,
            ExitWithOutput, ExitWithSuccess, ExitError, ExitSuccess]
    · cases h1 : db.GetSet (env.getTimeoutContext cmd) "" with
      | error e => simp [runSetRemoveCommand, getSetName, hn, key, h1, bind, Cmd.bind]
      | ok s =>
        cases h2 : s.Remove (env.getTimeoutContext cmd) value <;>
          simp [runSetRemoveCommand, getSetName, hn, key, h1, h2, bind, Cmd.bind, pure, Cmd.pure,
            Cmd.remote, Cmd.withDefer, cancel, Cmd.emit, Cmd.osExit, ExitWithError,
            ExitWithOutput, ExitWithSuccess, ExitError, ExitSuccess]
    · cases h1 : db.GetSet (env.getTimeoutContext cmd) "" with
      | error e => simp [runSetSizeCommand, getSetName, hn, key, h1, bind, Cmd.bind]
      | ok s =>
        cases h2 : s.Len (env.getTimeoutContext cmd) <;>
          simp [runSetSizeCommand, getSetName, hn, key, h1, h2, bind, Cmd.bind, pure, Cmd.pure,
            Cmd.remote, Cmd.withDefer, cancel, Cmd.emit, Cmd.osExit, ExitWithError,
            ExitWithOutput, ExitWithSuccess, ExitError, ExitSuccess]
    · cases h1 : db.GetSet (env.getTimeoutContext cmd) "" with
      | error e => simp [runSetClearCommand, getSetName, hn, key, h1, bind, Cmd.bind]
      | ok s =>
        cases h2 : s.Clear (env.getTimeoutContext cmd) <;>
          simp [runSetClearCommand, getSetName, hn, key, h1, h2, bind, Cmd.bind, pure, Cmd.pure,
            Cmd.remote, Cmd.withDefer, cancel, Cmd.emit, Cmd.osExit, ExitWithError,
            ExitWithOutput, ExitWithSuccess, ExitError, ExitSuccess]
  · intro g hg args h hh
    have key := newLockFromName_eq env cmd g (by rw [hn]; exact hg)
    rw [hn] at key
    simp only [List.mem_cons, List.mem_singleton, List.not_mem_nil, or_false] at hh
    rcases hh with rfl | rfl | rfl | rfl | rfl
    · cases h1 : g.GetLock (env.newTimeoutContext cmd) (env.getPrimitiveName "") <;>
        simp [runLockCreateCommand, key, h1, bind, Cmd.bind, pure, Cmd.pure,
            Cmd.remote, Cmd.withDefer, cancel, Cmd.emit, Cmd.osExit, ExitWithError,
            ExitWithOutput, ExitWithSuccess, ExitError, ExitSuccess]
    · cases h1 : g.GetLock (env.newTimeoutContext cmd) (env.getPrimitiveName "") with
      | error e => simp [runLockDeleteCommand, key, h1, bind, Cmd.bind]
      | ok l =>
        cases h2 : l.Delete <;>
          simp [runLockDeleteCommand, key, h1, h2, bind, Cmd.bind, pure, Cmd.pure,
            Cmd.remote, Cmd.withDefer, cancel, Cmd.emit, Cmd.osExit, ExitWithError,
            ExitWithOutput, ExitWithSuccess, ExitError, ExitSuccess]
    · cases h1 : g.GetLock (env.newTimeoutContext cmd) (env.getPrimitiveName "") with
      | error e => simp [runLockLockCommand, key, h1, bind, Cmd.bind]
      | ok l =>
        cases h2 : l.Lock (env.newTimeoutContext cmd) <;>
          simp [runLockLockCommand, key, h1, h2, bind, Cmd.bind, pure, Cmd.pure,
            Cmd.remote, Cmd.withDefer, cancel, Cmd.emit, Cmd.osExit, ExitWithError,
            ExitWithOutput, ExitWithSuccess, ExitError, ExitSuccess]
    · cases h1 : g.GetLock (env.newTimeoutContext cmd) (env.getPrimitiveName "") with
      | error e => simp [runLockGetCommand, key, h1, bind, Cmd.bind]
      | ok l =>
        by_cases hv : cmd.version = 0
        · cases h2 : l.IsLocked (env.newTimeoutContext cmd) [] <;>
            simp [runLockGetCommand, key, h1, h2, hv, bind, Cmd.bind, pure, Cmd.pure,
              Cmd.remote, Cmd.withDefer, cancel, Cmd.emit, Cmd.osExit, ExitWithError,
              ExitWithOutput, ExitWithSuccess, ExitError, ExitSuccess]
        · cases h2 : l.IsLocked (env.newTimeoutContext cmd) [.IfVersion cmd.version] <;>
            simp [runLockGetCommand, key, h1, h2, hv, bind, Cmd.bind, pure, Cmd.pure,
              Cmd.remote, Cmd.withDefer, cancel, Cmd.emit, Cmd.osExit, ExitWithError,
              ExitWithOutput, ExitWithSuccess, ExitError, ExitSuccess]
    · cases h1 : g.GetLock (env.newTimeoutContext cmd) (env.getPrimitiveName "") with
      | error e => simp [runLockUnlockCommand, key, h1, bind, Cmd.bind]
      | ok l =>
        by_cases hv : cmd.version = 0
        · cases h2 : l.Unlock (env.newTimeoutContext cmd) [] <;>
            simp [runLockUnlockCommand, key, h1, h2, hv, bind, Cmd.bind, pure, Cmd.pure,
              Cmd.remote, Cmd.withDefer, cancel, Cmd.emit, Cmd.osExit, ExitWithError,
              ExitWithOutput, ExitWithSuccess, ExitError, ExitSuccess]
        · cases h2 : l.Unlock (env.newTimeoutContext cmd) [.IfVersion cmd.version] <;>
            simp [runLockUnlockCommand, key, h1, h2, hv, bind, Cmd.bind, pure, Cmd.pure,
              Cmd.remote, Cmd.withDefer, cancel, Cmd.emit, Cmd.osExit, ExitWithError,
              ExitWithOutput, ExitWithSuccess, ExitError, ExitSuccess]

/-- Witness of C7 amended: `set add foo` without `--name`. -/
theorem empty_name_is_passed_on_witness :
    ({} : Command).name = "" ∧
    ((runSetAddCommand sampleEnv {} ["foo"]).outcome = .exit 0 ∨
      (runSetAddCommand sampleEnv {} ["foo"]).outcome = .exit 1) :=
  ⟨rfl, ((empty_name_is_passed_on sampleEnv {} rfl).1 ⟨fun _ _ => .ok sampleSet⟩ rfl
    "foo" [] runSetAddCommand (by simp)).2⟩

/-! ## Remote errors -/

/-- C8: for every set, lock and group verb handler and every error `e` returned by its
remote operation (GetSet, Add, Contains, Remove, Len, Clear, Delete, GetLock, Lock,
IsLocked, Unlock, GetGroup, CreateGroup, DeleteGroup, GetGroups), the handler, once its
helper has returned, prints nothing to standard output, writes `Error:` followed by the
message of `e` unchanged to standard error right after the failed call, and exits with
code 1. -/
theorem remote_error_is_reported (env : Env) (cmd : Command) (e : Error) :
    (∀ db, (env.getDatabase cmd).outcome = .ret db →
      (∀ (name : String) (rest : List String),
        db.GetSet (env.getTimeoutContext cmd) name = .error e →
        failsWith (runSetCreateCommand env cmd (name :: rest)) (env.getDatabase cmd).trace
          [.call (.GetSet (env.getTimeoutContext cmd) name)] e ∧
        failsWith (runSetDeleteCommand env cmd (name :: rest)) (env.getDatabase cmd).trace
          [.call (.GetSet (env.getTimeoutContext cmd) name)] e) ∧
      (db.GetSet (env.getTimeoutContext cmd) cmd.name = .error e →
        ∀ (args : List String),
        ∀ h ∈ [runSetAddCommand, runSetContainsCommand, runSetRemoveCommand,
          runSetSizeCommand, runSetClearCommand],
          failsWith (h env cmd args) (env.getDatabase cmd).trace
            [.call (.GetSet (env.getTimeoutContext cmd) cmd.name)] e) ∧
      (∀ (name : String) (rest : List String) (s : SetClient),
        db.GetSet (env.getTimeoutContext cmd) name = .ok s →
        s.Delete (env.getTimeoutContext cmd) = some e →
        failsWith (runSetDeleteCommand env cmd (name :: rest)) (env.getDatabase cmd).trace
          [.call (.GetSet (env.getTimeoutContext cmd) name),
           .cancel (env.getTimeoutContext cmd),
           .call (.SetDelete (env.getTimeoutContext cmd))] e) ∧
      (∀ (s : SetClient), db.GetSet (env.getTimeoutContext cmd) cmd.name = .ok s →
        (∀ (value : String) (rest : List String),
          s.Add (env.getTimeoutContext cmd) value = .error e →
          failsWith (runSetAddCommand env cmd (value :: rest)) (env.getDatabase cmd).trace
            [.call (.GetSet (env.getTimeoutContext cmd) cmd.name),
             .cancel (env.getTimeoutContext cmd),
             .call (.SetAdd (env.getTimeoutContext cmd) value)] e) ∧
        (∀ (value : String) (rest : List String),
          s.Contains (env.getTimeoutContext cmd) value = .error e →
          failsWith (runSetContainsCommand env cmd (value :: rest))
            (env.getDatabase cmd).trace
            [.call (.GetSet (env.getTimeoutContext cmd) cmd.name),
             .cancel (env.getTimeoutContext cmd),
             .call (.SetContains (env.getTimeoutContext cmd) value)] e) ∧
        (∀ (value : String) (rest : List String),
          s.Remove (env.getTimeoutContext cmd) value = .error e →
          failsWith (runSetRemoveCommand env cmd (value :: rest)) (env.getDatabase cmd).trace
            [.call (.GetSet (env.getTimeoutContext cmd) cmd.name),
             .cancel (env.getTimeoutContext cmd),
             .call (.SetRemove (env.getTimeoutContext cmd) value)] e) ∧
        (∀ (args : List String), s.Len (env.getTimeoutContext cmd) = .error e →
          failsWith (runSetSizeCommand env cmd args) (env.getDatabase cmd).trace
            [.call (.GetSet (env.getTimeoutContext cmd) cmd.name),
             .cancel (env.getTimeoutContext cmd),
             .call (.SetLen (env.getTimeoutContext cmd))] e) ∧
        (∀ (args : List String), s.Clear (env.getTimeoutContext cmd) = some e →
          failsWith (runSetClearCommand env cmd args) (env.getDatabase cmd).trace
            [.call (.GetSet (env.getTimeoutContext cmd) cmd.name),
             .cancel (env.getTimeoutContext cmd),
             .call (.SetClear (env.getTimeoutContext cmd))] e))) ∧
    (∀ g, (env.newGroupFromName cmd cmd.name).outcome = .ret g →
      (g.GetLock (env.newTimeoutContext cmd) (env.getPrimitiveName cmd.name) = .error e →
        ∀ (args : List String),
        ∀ h ∈ [runLockCreateCommand, runLockDeleteCommand, runLockLockCommand,
          runLockGetCommand, runLockUnlockCommand],
          failsWith (h env cmd args) (env.newGroupFromName cmd cmd.name).trace
            [.call (.GetLock (env.newTimeoutContext cmd) (env.getPrimitiveName cmd.name))]
            e) ∧
      (∀ (l : LockClient) (args : List String),
        g.GetLock (env.newTimeoutContext cmd) (env.getPrimitiveName cmd.name) = .ok l →
        (l.Delete = some e →
          failsWith (runLockDeleteCommand env cmd args)
            (env.newGroupFromName cmd cmd.name).trace
            [.call (.GetLock (env.newTimeoutContext cmd) (env.getPrimitiveName cmd.name)),
             .call .LockDelete] e) ∧
        (l.Lock (env.newTimeoutContext cmd) = .error e →
          failsWith (runLockLockCommand env cmd args)
            (env.newGroupFromName cmd cmd.name).trace
            [.call (.GetLock (env.newTimeoutContext cmd) (env.getPrimitiveName cmd.name)),
             .call (.LockLock (env.newTimeoutContext cmd))] e) ∧
        (l.IsLocked (env.newTimeoutContext cmd)
            (if cmd.version = 0 then [] else [.IfVersion cmd.version]) = .error e →
          failsWith (runLockGetCommand env cmd args)
            (env.newGroupFromName cmd cmd.name).trace
            [.call (.GetLock (env.newTimeoutContext cmd) (env.getPrimitiveName cmd.name)),
             .call (.LockIsLocked (env.newTimeoutContext cmd)
               (if cmd.version = 0 then [] else [.IfVersion cmd.version]))] e) ∧
        (l.Unlock (env.newTimeoutContext cmd)
            (if cmd.version = 0 then [] else [.IfVersion cmd.version]) = .error e →
          failsWith (runLockUnlockCommand env cmd args)
            (env.newGroupFromName cmd cmd.name).trace
            [.call (.GetLock (env.newTimeoutContext cmd) (env.getPrimitiveName cmd.name)),
             .call (.LockUnlock (env.newTimeoutContext cmd)
               (if cmd.version = 0 then [] else [.IfVersion cmd.version]))] e))) ∧
    (∀ c, env.newClientFromEnv.outcome = .ret c →
      c.GetGroups (env.newTimeoutContext cmd) = .error e →
      ∀ (args : List String),
        failsWith (runGroupsCommand env cmd args) env.newClientFromEnv.trace
          [.call (.GetGroups (env.newTimeoutContext cmd))] e) ∧
    (∀ c, (env.newClientFromGroup env.getClientGroup).outcome = .ret c →
      c.GetGroup (env.newTimeoutContext cmd) (env.getGroupName env.getClientGroup) =
        .error e →
      failsWith (runGroupGetCommand env cmd [])
        (env.newClientFromGroup env.getClientGroup).trace
        [.call (.GetGroup (env.newTimeoutContext cmd)
          (env.getGroupName env.getClientGroup))] e) ∧
    (∀ (name : String) (rest : List String) (c : Client),
      (env.newClientFromGroup name).outcome = .ret c →
      (c.GetGroup (env.newTimeoutContext cmd) (env.getGroupName name) = .error e →
        failsWith (runGroupGetCommand env cmd (name :: rest))
          (env.newClientFromGroup name).trace
          [.call (.GetGroup (env.newTimeoutContext cmd) (env.getGroupName name))] e) ∧
      (c.CreateGroup (env.newTimeoutContext cmd) (env.getGroupName name) cmd.partitions
          cmd.partitionSize (protocolOf cmd.protocol) = .error e →
        failsWith (runGroupCreateCommand env cmd (name :: rest))
          (env.newClientFromGroup name).trace
          [.call (.CreateGroup (env.newTimeoutContext cmd) (env.getGroupName name)
            cmd.partitions cmd.partitionSize (protocolOf cmd.protocol))] e) ∧
      (c.DeleteGroup (env.newTimeoutContext cmd) (env.getGroupName name) = some e →
        failsWith (runGroupDeleteCommand env cmd (name :: rest))
          (env.newClientFromGroup name).trace
          [.call (.DeleteGroup (env.newTimeoutContext cmd) (env.getGroupName name))] e)) := by
  refine ⟨?_, ?_, ?_, ?_, ?_⟩
  · intro db hdb
    refine ⟨?_, ?_, ?_, ?_⟩
    · intro name rest h1
      have key := newSetFromName_eq env cmd name db hdb
      constructor <;>
        simp [failsWith, runSetCreateCommand, runSetDeleteCommand, key, h1, bind, Cmd.bind,
          Cmd.stdoutOf]
    · intro h1 args h hh
      have key := newSetFromName_eq env cmd cmd.name db hdb
      simp only [List.mem_cons, List.mem_singleton, List.not_mem_nil, or_false] at hh
      rcases hh with rfl | rfl | rfl | rfl | rfl <;>
        simp [failsWith, runSetAddCommand, runSetContainsCommand, runSetRemoveCommand,
          runSetSizeCommand, runSetClearCommand, getSetName, key, h1, bind, Cmd.bind,
          Cmd.stdoutOf]
    · intro name rest s h1 h2
      have key := newSetFromName_eq env cmd name db hdb
      simp [failsWith, runSetDeleteCommand, key, h1, h2, bind, Cmd.bind, pure, Cmd.pure,
        Cmd.remote, Cmd.withDefer, cancel, Cmd.emit, Cmd.osExit, ExitWithError,
        Sprintln_error, ExitError, Cmd.stdoutOf]
    · intro s h1
      have key := newSetFromName_eq env cmd cmd.name db hdb
      refine ⟨?_, ?_, ?_, ?_, ?_⟩ <;> intros <;>
        simp_all [failsWith, runSetAddCommand, runSetContainsCommand, runSetRemoveCommand,
          runSetSizeCommand, runSetClearCommand, getSetName, bind, Cmd.bind, pure,
          Cmd.pure, Cmd.remote, Cmd.withDefer, cancel, Cmd.emit, Cmd.osExit, ExitWithError,
          Sprintln_error, ExitError, Cmd.stdoutOf]
  · intro g hg
    have key := newLockFromName_eq env cmd g hg
    constructor
    · intro h1 args h hh
      simp only [List.mem_cons, List.mem_singleton, List.not_mem_nil, or_false] at hh
      rcases hh with rfl | rfl | rfl | rfl | rfl <;>
        simp [failsWith, runLockCreateCommand, runLockDeleteCommand, runLockLockCommand,
          runLockGetCommand, runLockUnlockCommand, key, h1, bind, Cmd.bind, Cmd.stdoutOf]
    · intro l args h1
      refine ⟨?_, ?_, ?_, ?_⟩ <;> intro h2
      · simp [failsWith, runLockDeleteCommand, key, h1, h2, bind, Cmd.bind, pure, Cmd.pure,
          Cmd.remote, Cmd.emit, Cmd.osExit, ExitWithError, Sprintln_error, ExitError,
          Cmd.stdoutOf]
      · simp [failsWith, runLockLockCommand, key, h1, h2, bind, Cmd.bind, pure, Cmd.pure,
          Cmd.remote, Cmd.emit, Cmd.osExit, ExitWithError, Sprintln_error, ExitError,
          Cmd.stdoutOf]
      · by_cases hv : cmd.version = 0 <;>
          simp [hv] at h2 <;>
          simp [failsWith, runLockGetCommand, key, h1, h2, hv, bind, Cmd.bind, pure,
            Cmd.pure, Cmd.remote, Cmd.emit, Cmd.osExit, ExitWithError, Sprintln_error,
            ExitError, Cmd.stdoutOf]
      · by_cases hv : cmd.version = 0 <;>
          simp [hv] at h2 <;>
          simp [failsWith, runLockUnlockCommand, key, h1, h2, hv, bind, Cmd.bind, pure,
            Cmd.pure, Cmd.remote, Cmd.emit, Cmd.osExit, ExitWithError, Sprintln_error,
            ExitError, Cmd.stdoutOf]
  · intro c hc h1 args
    simp [failsWith, runGroupsCommand, hc, h1, bind, Cmd.bind, pure, Cmd.pure,
      Cmd.remote, Cmd.emit, Cmd.osExit, ExitWithError, Sprintln_error, ExitError,
      Cmd.stdoutOf]
  · intro c hc h1
    simp [failsWith, runGroupGetCommand, hc, h1, bind, Cmd.bind, pure, Cmd.pure,
      Cmd.remote, Cmd.emit, Cmd.osExit, ExitWithError, Sprintln_error, ExitError,
      Cmd.stdoutOf]
  · intro name rest c hc
    refine ⟨?_, ?_, ?_⟩ <;> intro h1 <;>
      simp [failsWith, runGroupGetCommand, runGroupCreateCommand, runGroupDeleteCommand,
        hc, h1, bind, Cmd.bind, pure, Cmd.pure, Cmd.remote, Cmd.emit, Cmd.osExit,
        ExitWithError, Sprintln_error, ExitError, Cmd.stdoutOf]

/-- Witness of C8: `set add --name s1 foo` against a set that refuses the call. -/
theorem remote_error_is_reported_witness :
    (refusingSet ⟨"deadline exceeded"⟩).Add ⟨15000000000⟩ "foo" =
      .error ⟨"deadline exceeded"⟩ ∧
    (runSetAddCommand (refusingEnv ⟨"deadline exceeded"⟩) { name := "s1" } ["foo"]).trace =
      [.call (.GetSet ⟨15000000000⟩ "s1"), .cancel ⟨15000000000⟩,
       .call (.SetAdd ⟨15000000000⟩ "foo"), .stderr "Error: deadline exceeded\n"] ∧
    (runSetAddCommand (refusingEnv ⟨"deadline exceeded"⟩) { name := "s1" } ["foo"]).outcome =
      .exit 1 :=
  have h := ((remote_error_is_reported (refusingEnv ⟨"deadline exceeded"⟩) { name := "s1" }
    ⟨"deadline exceeded"⟩).1 ⟨fun _ _ => .ok (refusingSet ⟨"deadline exceeded"⟩)⟩ rfl).2.2.2
    (refusingSet ⟨"deadline exceeded"⟩) rfl
  ⟨rfl, (h.1 "foo" [] rfl).1, (h.1 "foo" [] rfl).2.2⟩

/-! ## lock.go: the version precondition -/

/-- C9: for every version `v` given with `--version`, once the lock has been looked up,
`runLockUnlockCommand` makes exactly one call, `Unlock`, and `runLockGetCommand` exactly
one call, `IsLocked`; the call carries the single option `IfVersion(v)` when `v` is not
zero and no option when `v` is 0; what the command then prints and the code it exits
with are decided by the answer of that call alone, no version is compared locally. -/
theorem lock_version_is_remote_precondition (env : Env) (cmd : Command)
    (args : List String) (l : LockClient)
    (hl : (newLockFromName env cmd).outcome = .ret l) :
    ((runLockUnlockCommand env cmd args).trace = (newLockFromName env cmd).trace ++
        [.call (.LockUnlock (env.newTimeoutContext cmd)
            (if cmd.version = 0 then [] else [.IfVersion cmd.version])),
         answerEvent ((l.Unlock (env.newTimeoutContext cmd)
            (if cmd.version = 0 then [] else [.IfVersion cmd.version])).map .bool)] ∧
      (runLockUnlockCommand env cmd args).outcome =
        .exit (answerCode ((l.Unlock (env.newTimeoutContext cmd)
            (if cmd.version = 0 then [] else [.IfVersion cmd.version])).map .bool))) ∧
    ((runLockGetCommand env cmd args).trace = (newLockFromName env cmd).trace ++
        [.call (.LockIsLocked (env.newTimeoutContext cmd)
            (if cmd.version = 0 then [] else [.IfVersion cmd.version])),
         answerEvent ((l.IsLocked (env.newTimeoutContext cmd)
            (if cmd.version = 0 then [] else [.IfVersion cmd.version])).map .bool)] ∧
      (runLockGetCommand env cmd args).outcome =
        .exit (answerCode ((l.IsLocked (env.newTimeoutContext cmd)
            (if cmd.version = 0 then [] else [.IfVersion cmd.version])).map .bool))) := by
  constructor
  · by_cases hv : cmd.version = 0
    · cases h2 : l.Unlock (env.newTimeoutContext cmd) [] <;>
        simp [runLockUnlockCommand, hl, hv, h2, answerEvent, answerCode, Except.map, bind,
          Cmd.bind, pure, Cmd.pure, Cmd.remote, Cmd.emit, Cmd.osExit, ExitWithError,
          ExitWithOutput, Sprintln_error, Sprintln_single, ExitError, ExitSuccess]
    · cases h2 : l.Unlock (env.newTimeoutContext cmd) [.IfVersion cmd.version] <;>
        simp [runLockUnlockCommand, hl, hv, h2, answerEvent, answerCode, Except.map, bind,
          Cmd.bind, pure, Cmd.pure, Cmd.remote, Cmd.emit, Cmd.osExit, ExitWithError,
          ExitWithOutput, Sprintln_error, Sprintln_single, ExitError, ExitSuccess]
  · by_cases hv : cmd.version = 0
    · cases h2 : l.IsLocked (env.newTimeoutContext cmd) [] <;>
        simp [runLockGetCommand, hl, hv, h2, answerEvent, answerCode, Except.map, bind,
          Cmd.bind, pure, Cmd.pure, Cmd.remote, Cmd.emit, Cmd.osExit, ExitWithError,
          ExitWithOutput, Sprintln_error, Sprintln_single, ExitError, ExitSuccess]
    · cases h2 : l.IsLocked (env.newTimeoutContext cmd) [.IfVersion cmd.version] <;>
        simp [runLockGetCommand, hl, hv, h2, answerEvent, answerCode, Except.map, bind,
          Cmd.bind, pure, Cmd.pure, Cmd.remote, Cmd.emit, Cmd.osExit, ExitWithError,
          ExitWithOutput, Sprintln_error, Sprintln_single, ExitError, ExitSuccess]

/-- Witness of C9: `lock unlock --name mylock --version 7`. -/
theorem lock_version_is_remote_precondition_witness :
    (newLockFromName sampleEnv { name := "mylock", version := 7 }).outcome =
      .ret sampleLock ∧
    (runLockUnlockCommand sampleEnv { name := "mylock", version := 7 } []).trace =
      [.call (.GetLock ⟨15000000000⟩ "mylock"),
       .call (.LockUnlock ⟨15000000000⟩ [.IfVersion 7]), .stdout "true\n"] ∧
    (runLockUnlockCommand sampleEnv { name := "mylock", version := 7 } []).outcome =
      .exit 0 :=
  ⟨rfl,
   (lock_version_is_remote_precondition sampleEnv { name := "mylock", version := 7 } []
     sampleLock rfl).1.1,
   (lock_version_is_remote_precondition sampleEnv { name := "mylock", version := 7 } []
     sampleLock rfl).1.2⟩

/-! ## group.go: group create -/

/-- C10: for every partition count `p` and partition size `s`, `group create <name>
--protocol raft --partitions p --partitionSize s`, once the client has been obtained,
issues one `CreateGroup` call carrying `p`, `s` and the Raft descriptor unchanged; when
the call succeeds the command prints the four lines Name, Namespace, Partitions and
Partitions Size with the values of the returned group and exits with code 0, so for a
returned group with 3 partitions of size 1 it prints `Partitions:      3` and
`Partitions Size: 1`. -/
theorem group_create_raft (env : Env) (cmd : Command) (name : String) (rest : List String)
    (client : Client) (hp : cmd.protocol = "raft")
    (hc : (env.newClientFromGroup name).outcome = .ret client) :
    (∃ tail, (runGroupCreateCommand env cmd (name :: rest)).trace =
        (env.newClientFromGroup name).trace ++
          .call (.CreateGroup (env.newTimeoutContext cmd) (env.getGroupName name)
            cmd.partitions cmd.partitionSize (some .raft)) :: tail ∧
        Cmd.callsOf tail = []) ∧
    (∀ group, client.CreateGroup (env.newTimeoutContext cmd) (env.getGroupName name)
        cmd.partitions cmd.partitionSize (some .raft) = .ok group →
      (runGroupCreateCommand env cmd (name :: rest)).trace =
        (env.newClientFromGroup name).trace ++
          [.call (.CreateGroup (env.newTimeoutContext cmd) (env.getGroupName name)
            cmd.partitions cmd.partitionSize (some .raft)),
           .stdout ("Name:            " ++ group.Name ++ "\n"),
           .stdout ("Namespace:       " ++ group.Namespace ++ "\n"),
           .stdout ("Partitions:      " ++ toString group.Partitions ++ "\n"),
           .stdout ("Partitions Size: " ++ toString group.PartitionSize ++ "\n")] ∧
      (runGroupCreateCommand env cmd (name :: rest)).outcome = .exit 0 ∧
      (group.Partitions = 3 → group.PartitionSize = 1 →
        (runGroupCreateCommand env cmd (name :: rest)).trace =
          (env.newClientFromGroup name).trace ++
            [.call (.CreateGroup (env.newTimeoutContext cmd) (env.getGroupName name)
              cmd.partitions cmd.partitionSize (some .raft)),
             .stdout ("Name:            " ++ group.Name ++ "\n"),
             .stdout ("Namespace:       " ++ group.Namespace ++ "\n"),
             .stdout "Partitions:      3\n",
             .stdout "Partitions Size: 1\n"])) := by
  have hproto : protocolOf cmd.protocol = some .raft := by simp [protocolOf, hp]
  constructor
  · cases h1 : client.CreateGroup (env.newTimeoutContext cmd) (env.getGroupName name)
        cmd.partitions cmd.partitionSize (some .raft) <;>
      simp [runGroupCreateCommand, printGroup, hproto, hc, h1, bind, Cmd.bind, pure,
        Cmd.pure, Cmd.remote, Cmd.emit, Cmd.osExit, ExitWithError, ExitWithSuccess,
        Cmd.callsOf]
  · intro group h1
    have ht : (runGroupCreateCommand env cmd (name :: rest)).trace =
        (env.newClientFromGroup name).trace ++
          [.call (.CreateGroup (env.newTimeoutContext cmd) (env.getGroupName name)
            cmd.partitions cmd.partitionSize (some .raft)),
           .stdout ("Name:            " ++ group.Name ++ "\n"),
           .stdout ("Namespace:       " ++ group.Namespace ++ "\n"),
           .stdout ("Partitions:      " ++ toString group.Partitions ++ "\n"),
           .stdout ("Partitions Size: " ++ toString group.PartitionSize ++ "\n")] := by
      simp [runGroupCreateCommand, printGroup, hproto, hc, h1, bind, Cmd.bind, pure,
        Cmd.pure, Cmd.remote, Cmd.emit, Cmd.osExit, ExitWithSuccess]
    refine ⟨ht, ?_, ?_⟩
    · simp [runGroupCreateCommand, printGroup, hproto, hc, h1, bind, Cmd.bind, pure,
        Cmd.pure, Cmd.remote, Cmd.emit, Cmd.osExit, ExitWithSuccess, ExitSuccess]
    · intro h3 h4
      rw [ht, h3, h4]
      rfl

/-- Witness of C10: `group create mygroup --protocol raft --partitions 3
--partitionSize 1` against a controller that creates the group as requested. -/
theorem group_create_raft_witness :
    ({ partitions := 3 } : Command).protocol = "raft" ∧
    (runGroupCreateCommand sampleEnv { partitions := 3 } ["mygroup"]).calls =
      [.CreateGroup ⟨15000000000⟩ "mygroup" 3 1 (some .raft)] ∧
    (runGroupCreateCommand sampleEnv { partitions := 3 } ["mygroup"]).stdoutText =
      "Name:            mygroup\nNamespace:       default\n" ++
      "Partitions:      3\nPartitions Size: 1\n" ∧
    (runGroupCreateCommand sampleEnv { partitions := 3 } ["mygroup"]).outcome = .exit 0 :=
  have h := (group_create_raft sampleEnv { partitions := 3 } "mygroup" [] sampleClient rfl
    rfl).2 (sampleGroup "mygroup" 3 1) rfl
  ⟨rfl, by rw [Cmd.calls, h.1]; decide, by rw [Cmd.stdoutText, h.1]; decide, h.2.1⟩

/-! ## completion.go: determinism -/

/-- C11: the zsh generator is deterministic: two invocations of `runCompletionZsh` for
which the bash generator writes the same text, in particular two invocations on the same
unchanged command tree with a generator that is a function of the tree, make the same
writes and so produce byte-identical output; nothing else enters the output. -/
theorem runCompletionZsh_deterministic (cobra₁ cobra₂ : Cobra) (cmd₁ cmd₂ : CommandTree)
    (h : (cobra₁.GenBashCompletion cmd₁).1 = (cobra₂.GenBashCompletion cmd₂).1) :
    (runCompletionZsh cobra₁ osStdout cmd₁).trace =
      (runCompletionZsh cobra₂ osStdout cmd₂).trace ∧
    (runCompletionZsh cobra₁ osStdout cmd₁).stdoutText =
      (runCompletionZsh cobra₂ osStdout cmd₂).stdoutText ∧
    (runCompletionZsh cobra₁ osStdout cmd₁).outcome =
      (runCompletionZsh cobra₂ osStdout cmd₂).outcome := by
  have h1 : (runCompletionZsh cobra₁ osStdout cmd₁).trace =
      [.stdout zsh_head, .stdout zsh_initialization,
       .stdout (cobra₁.GenBashCompletion cmd₁).1, .stdout zsh_tail] := rfl
  have h2 : (runCompletionZsh cobra₂ osStdout cmd₂).trace =
      [.stdout zsh_head, .stdout zsh_initialization,
       .stdout (cobra₂.GenBashCompletion cmd₂).1, .stdout zsh_tail] := rfl
  have ht : (runCompletionZsh cobra₁ osStdout cmd₁).trace =
      (runCompletionZsh cobra₂ osStdout cmd₂).trace := by rw [h1, h2, h]
  refine ⟨ht, ?_, rfl⟩
  simp only [Cmd.stdoutText, ht]

/-- Witness of C11: the zsh generator run twice on the same command tree. -/
theorem runCompletionZsh_deterministic_witness :
    (sampleCobra.GenBashCompletion (.node "atomix" [.node "set" [], .node "lock" []])).1 =
      (sampleCobra.GenBashCompletion (.node "atomix" [.node "set" [], .node "lock" []])).1 ∧
    (runCompletionZsh sampleCobra osStdout
        (.node "atomix" [.node "set" [], .node "lock" []])).stdoutText =
      (runCompletionZsh sampleCobra osStdout
        (.node "atomix" [.node "set" [], .node "lock" []])).stdoutText :=
  ⟨rfl, (runCompletionZsh_deterministic sampleCobra sampleCobra
    (.node "atomix" [.node "set" [], .node "lock" []])
    (.node "atomix" [.node "set" [], .node "lock" []]) rfl).2.1⟩

/-! ## set.go: the cancel functions -/

/-- C12, the code at the failing inputs: `set size --name s1` obtains two contexts, one
in `newSetFromName` and one in the handler, but only the first cancel function is
invoked: on the success path and on the path where `Len` fails the trace ends with the
output, resp. the error report, without a second cancel, because `os.Exit` skips the
deferred call; and when `GetSet` fails inside `newSetFromName` no cancel function is
invoked at all. -/
theorem cancel_skipped_on_exit :
    ((runSetSizeCommand sampleEnv { name := "s1" } []).trace =
        [.call (.GetSet ⟨15000000000⟩ "s1"), .cancel ⟨15000000000⟩,
         .call (.SetLen ⟨15000000000⟩), .stdout "1\n"] ∧
      (runSetSizeCommand sampleEnv { name := "s1" } []).outcome = .exit 0 ∧
      (cancelsOf (runSetSizeCommand sampleEnv { name := "s1" } []).trace).length = 1) ∧
    ((runSetSizeCommand (refusingEnv ⟨"deadline exceeded"⟩) { name := "s1" } []).trace =
        [.call (.GetSet ⟨15000000000⟩ "s1"), .cancel ⟨15000000000⟩,
         .call (.SetLen ⟨15000000000⟩), .stderr "Error: deadline exceeded\n"] ∧
      (runSetSizeCommand (refusingEnv ⟨"deadline exceeded"⟩) { name := "s1" } []).outcome =
        .exit 1) ∧
    ((newSetFromName (unreachableEnv ⟨"deadline exceeded"⟩) {} "s1").trace =
        [.call (.GetSet ⟨15000000000⟩ "s1"), .stderr "Error: deadline exceeded\n"] ∧
      cancelsOf (newSetFromName (unreachableEnv ⟨"deadline exceeded"⟩) {} "s1").trace = []) := by
  decide

/-! ## set.go and lock.go: closing the client -/

/-- C13, the claim as stated fails: `set add --name s1 foo` and `lock lock --name mylock`
end with exit code 0 without a single `Close` call on the client they opened. -/
theorem client_not_closed :
    (runSetAddCommand sampleEnv { name := "s1" } ["foo"]).calls =
      [.GetSet ⟨15000000000⟩ "s1", .SetAdd ⟨15000000000⟩ "foo"] ∧
    closesOf (runSetAddCommand sampleEnv { name := "s1" } ["foo"]).trace = 0 ∧
    (runSetAddCommand sampleEnv { name := "s1" } ["foo"]).outcome = .exit 0 ∧
    (runLockLockCommand sampleEnv { name := "mylock" } []).calls =
      [.GetLock ⟨15000000000⟩ "mylock", .LockLock ⟨15000000000⟩] ∧
    closesOf (runLockLockCommand sampleEnv { name := "mylock" } []).trace = 0 ∧
    (runLockLockCommand sampleEnv { name := "mylock" } []).outcome = .exit 0 := by
  decide

/-- C13, amended: only the create handlers close the client: once the lookup has
succeeded, `runSetCreateCommand` and `runLockCreateCommand` call `Close` exactly once,
then print `Created` with the name and exit with code 0; every other set and lock verb
handler ends, for every outcome of its remote operation, without a `Close` call of its
own. -/
theorem close_only_in_create (env : Env) (cmd : Command) :
    (∀ db, (env.getDatabase cmd).outcome = .ret db →
      (∀ (name : String) (rest : List String) (s : SetClient),
        db.GetSet (env.getTimeoutContext cmd) name = .ok s →
        (runSetCreateCommand env cmd (name :: rest)).trace = (env.getDatabase cmd).trace ++
          [.call (.GetSet (env.getTimeoutContext cmd) name),
           .cancel (env.getTimeoutContext cmd),
           .call (.SetClose (env.getTimeoutContext cmd)),
           .stdout ("Created " ++ s.Name ++ "\n")] ∧
        (runSetCreateCommand env cmd (name :: rest)).outcome = .exit 0) ∧
      (∀ (name : String) (rest : List String),
        ∃ own, (runSetDeleteCommand env cmd (name :: rest)).trace =
          (env.getDatabase cmd).trace ++ own ∧ closesOf own = 0) ∧
      (∀ (args : List String),
        ∀ h ∈ [runSetAddCommand, runSetContainsCommand, runSetRemoveCommand,
          runSetSizeCommand, runSetClearCommand],
          ∃ own, (h env cmd args).trace = (env.getDatabase cmd).trace ++ own ∧
            closesOf own = 0)) ∧
    (∀ g, (env.newGroupFromName cmd cmd.name).outcome = .ret g →
      (∀ (args : List String) (l : LockClient),
        g.GetLock (env.newTimeoutContext cmd) (env.getPrimitiveName cmd.name) = .ok l →
        (runLockCreateCommand env cmd args).trace =
          (env.newGroupFromName cmd cmd.name).trace ++
            [.call (.GetLock (env.newTimeoutContext cmd) (env.getPrimitiveName cmd.name)),
             .call .LockClose,
             .stdout ("Created " ++ l.Name ++ "\n")] ∧
        (runLockCreateCommand env cmd args).outcome = .exit 0) ∧
      (∀ (args : List String),
        ∀ h ∈ [runLockDeleteCommand, runLockLockCommand, runLockGetCommand,
          runLockUnlockCommand],
          ∃ own, (h env cmd args).trace = (env.newGroupFromName cmd cmd.name).trace ++ own ∧
            closesOf own = 0)) := by
  constructor
  · intro db hdb
    refine ⟨?_, ?_, ?_⟩
    · intro name rest s h1
      have key := newSetFromName_eq env cmd name db hdb
      simp [runSetCreateCommand, key, h1, bind, Cmd.bind, pure, Cmd.pure, Cmd.remote,
        Cmd.withDefer, cancel, Cmd.emit, Cmd.osExit, ExitWithOutput, Sprintln_single,
        Value.format, ExitSuccess]
    · intro name rest
      have key := newSetFromName_eq env cmd name db hdb
      cases h1 : db.GetSet (env.getTimeoutContext cmd) name with
      | error e => simp [runSetDeleteCommand, key, h1, bind, Cmd.bind, closesOf]
      | ok s =>
        cases h2 : s.Delete (env.getTimeoutContext cmd) <;>
          simp [runSetDeleteCommand, key, h1, h2, bind, Cmd.bind, pure, Cmd.pure, Cmd.remote, Cmd.withDefer, cancel, Cmd.emit,
            Cmd.osExit, Cmd.goPanic, ExitWithError, ExitWithOutput, ExitWithSuccess,
            closesOf]
    · intro args h hh
      have key := newSetFromName_eq env cmd cmd.name db hdb
      simp only [List.mem_cons, List.mem_singleton, List.not_mem_nil, or_false] at hh
      rcases hh with rfl | rfl | rfl | rfl | rfl
      · cases h1 : db.GetSet (env.getTimeoutContext cmd) cmd.name with
        | error e => simp [runSetAddCommand, getSetName, key, h1, bind, Cmd.bind, closesOf]
        | ok s =>
          cases args with
          | nil => simp [runSetAddCommand, getSetName, key, h1, bind, Cmd.bind, Cmd.goPanic, closesOf]
          | cons value rest =>
            cases h2 : s.Add (env.getTimeoutContext cmd) value <;>
              simp [runSetAddCommand, getSetName, key, h1, h2, bind, Cmd.bind, pure, Cmd.pure, Cmd.remote, Cmd.withDefer, cancel, Cmd.emit,
              Cmd.osExit, Cmd.goPanic, ExitWithError, ExitWithOutput, ExitWithSuccess,
              closesOf]
      · cases h1 : db.GetSet (env.getTimeoutContext cmd) cmd.name with
        | error e => simp [runSetContainsCommand, getSetName, key, h1, bind, Cmd.bind, closesOf]
        | ok s =>
          cases args with
          | nil => simp [runSetContainsCommand, getSetName, key, h1, bind, Cmd.bind, Cmd.goPanic, closesOf]
          | cons value rest =>
            cases h2 : s.Contains (env.getTimeoutContext cmd) value <;>
              simp [runSetContainsCommand, getSetName, key, h1, h2, bind, Cmd.bind, pure, Cmd.pure, Cmd.remote, Cmd.withDefer, cancel, Cmd.emit,
              Cmd.osExit, Cmd.goPanic, ExitWithError, ExitWithOutput, ExitWithSuccess,
              closesOf]
      · cases h1 : db.GetSet (env.getTimeoutContext cmd) cmd.name with
        | error e => simp [runSetRemoveCommand, getSetName, key, h1, bind, Cmd.bind, closesOf]
        | ok s =>
          cases args with
          | nil => simp [runSetRemoveCommand, getSetName, key, h1, bind, Cmd.bind, Cmd.goPanic, closesOf]
          | cons value rest =>
            cases h2 : s.Remove (env.getTimeoutContext cmd) value <;>
              simp [runSetRemoveCommand, getSetName, key, h1, h2, bind, Cmd.bind, pure, Cmd.pure, Cmd.remote, Cmd.withDefer, cancel, Cmd.emit,
              Cmd.osExit, Cmd.goPanic, ExitWithError, ExitWithOutput, ExitWithSuccess,
              closesOf]
      · cases h1 : db.GetSet (env.getTimeoutContext cmd) cmd.name with
        | error e => simp [runSetSizeCommand, getSetName, key, h1, bind, Cmd.bind, closesOf]
        | ok s =>
          cases h2 : s.Len (env.getTimeoutContext cmd) <;>
            simp [runSetSizeCommand, getSetName, key, h1, h2, bind, Cmd.bind, pure, Cmd.pure, Cmd.remote, Cmd.withDefer, cancel, Cmd.emit,
              Cmd.osExit, Cmd.goPanic, ExitWithError, ExitWithOutput, ExitWithSuccess,
              closesOf]
      · cases h1 : db.GetSet (env.getTimeoutContext cmd) cmd.name with
        | error e => simp [runSetClearCommand, getSetName, key, h1, bind, Cmd.bind, closesOf]
        | ok s =>
          cases h2 : s.Clear (env.getTimeoutContext cmd) <;>
            simp [runSetClearCommand, getSetName, key, h1, h2, bind, Cmd.bind, pure, Cmd.pure, Cmd.remote, Cmd.withDefer, cancel, Cmd.emit,
              Cmd.osExit, Cmd.goPanic, ExitWithError, ExitWithOutput, ExitWithSuccess,
              closesOf]
  · intro g hg
    have key := newLockFromName_eq env cmd g hg
    constructor
    · intro args l h1
      simp [runLockCreateCommand, key, h1, bind, Cmd.bind, pure, Cmd.pure, Cmd.remote,
        Cmd.emit, Cmd.osExit, ExitWithOutput, Sprintln_single, Value.format, ExitSuccess]
    · intro args h hh
      simp only [List.mem_cons, List.mem_singleton, List.not_mem_nil, or_false] at hh
      rcases hh with rfl | rfl | rfl | rfl
      · cases h1 : g.GetLock (env.newTimeoutContext cmd) (env.getPrimitiveName cmd.name) with
        | error e => simp [runLockDeleteCommand, key, h1, bind, Cmd.bind, closesOf]
        | ok l =>
          cases h2 : l.Delete <;>
            simp [runLockDeleteCommand, key, h1, h2, bind, Cmd.bind, pure, Cmd.pure, Cmd.remote, Cmd.withDefer, cancel, Cmd.emit,
              Cmd.osExit, Cmd.goPanic, ExitWithError, ExitWithOutput, ExitWithSuccess,
              closesOf]
      · cases h1 : g.GetLock (env.newTimeoutContext cmd) (env.getPrimitiveName cmd.name) with
        | error e => simp [runLockLockCommand, key, h1, bind, Cmd.bind, closesOf]
        | ok l =>
          cases h2 : l.Lock (env.newTimeoutContext cmd) <;>
            simp [runLockLockCommand, key, h1, h2, bind, Cmd.bind, pure, Cmd.pure, Cmd.remote, Cmd.withDefer, cancel, Cmd.emit,
              Cmd.osExit, Cmd.goPanic, ExitWithError, ExitWithOutput, ExitWithSuccess,
              closesOf]
      · cases h1 : g.GetLock (env.newTimeoutContext cmd) (env.getPrimitiveName cmd.name) with
        | error e => simp [runLockGetCommand, key, h1, bind, Cmd.bind, closesOf]
        | ok l =>
          by_cases hv : cmd.version = 0
          · cases h2 : l.IsLocked (env.newTimeoutContext cmd) [] <;>
              simp [runLockGetCommand, key, h1, h2, hv, bind, Cmd.bind, pure, Cmd.pure, Cmd.remote, Cmd.withDefer, cancel, Cmd.emit,
              Cmd.osExit, Cmd.goPanic, ExitWithError, ExitWithOutput, ExitWithSuccess,
              closesOf]
          · cases h2 : l.IsLocked (env.newTimeoutContext cmd) [.IfVersion cmd.version] <;>
              simp [runLockGetCommand, key, h1, h2, hv, bind, Cmd.bind, pure, Cmd.pure, Cmd.remote, Cmd.withDefer, cancel, Cmd.emit,
              Cmd.osExit, Cmd.goPanic, ExitWithError, ExitWithOutput, ExitWithSuccess,
              closesOf]
      · cases h1 : g.GetLock (env.newTimeoutContext cmd) (env.getPrimitiveName cmd.name) with
        | error e => simp [runLockUnlockCommand, key, h1, bind, Cmd.bind, closesOf]
        | ok l =>
          by_cases hv : cmd.version = 0
          · cases h2 : l.Unlock (env.newTimeoutContext cmd) [] <;>
              simp [runLockUnlockCommand, key, h1, h2, hv, bind, Cmd.bind, pure, Cmd.pure, Cmd.remote, Cmd.withDefer, cancel, Cmd.emit,
              Cmd.osExit, Cmd.goPanic, ExitWithError, ExitWithOutput, ExitWithSuccess,
              closesOf]
          · cases h2 : l.Unlock (env.newTimeoutContext cmd) [.IfVersion cmd.version] <;>
              simp [runLockUnlockCommand, key, h1, h2, hv, bind, Cmd.bind, pure, Cmd.pure, Cmd.remote, Cmd.withDefer, cancel, Cmd.emit,
              Cmd.osExit, Cmd.goPanic, ExitWithError, ExitWithOutput, ExitWithSuccess,
              closesOf]

/-- Witness of C13 amended: `set create s1`. -/
theorem close_only_in_create_witness :
    (runSetCreateCommand sampleEnv {} ["s1"]).trace =
      [.call (.GetSet ⟨15000000000⟩ "s1"), .cancel ⟨15000000000⟩,
       .call (.SetClose ⟨15000000000⟩), .stdout "Created default.s1\n"] ∧
    (runSetCreateCommand sampleEnv {} ["s1"]).outcome = .exit 0 :=
  ((close_only_in_create sampleEnv {}).1 ⟨fun _ _ => .ok sampleSet⟩ rfl).1 "s1" []
    sampleSet rfl

/-! ## group.go: the protocol of group create -/

/-- C15: in `runGroupCreateCommand` the protocol descriptor is chosen by exact match on
the value of `--protocol`: `raft` gives the Raft descriptor, `log` the Log descriptor,
and every other string (the empty string and `Raft` among them) is not rejected: once
the client has been obtained, `CreateGroup` is the first thing the handler does and it
is called once, with the nil descriptor and the given partitions and partition size;
when the controller accepts that call the command exits with code 0. -/
theorem group_create_protocol_exact_match (env : Env) (cmd : Command) (name : String)
    (rest : List String) (client : Client)
    (hc : (env.newClientFromGroup name).outcome = .ret client) :
    (cmd.protocol = "raft" →
      ∃ tail, (runGroupCreateCommand env cmd (name :: rest)).trace =
        (env.newClientFromGroup name).trace ++
          .call (.CreateGroup (env.newTimeoutContext cmd) (env.getGroupName name)
            cmd.partitions cmd.partitionSize (some .raft)) :: tail ∧
        Cmd.callsOf tail = []) ∧
    (cmd.protocol = "log" →
      ∃ tail, (runGroupCreateCommand env cmd (name :: rest)).trace =
        (env.newClientFromGroup name).trace ++
          .call (.CreateGroup (env.newTimeoutContext cmd) (env.getGroupName name)
            cmd.partitions cmd.partitionSize (some .log)) :: tail ∧
        Cmd.callsOf tail = []) ∧
    (cmd.protocol ≠ "raft" → cmd.protocol ≠ "log" →
      (∃ tail, (runGroupCreateCommand env cmd (name :: rest)).trace =
        (env.newClientFromGroup name).trace ++
          .call (.CreateGroup (env.newTimeoutContext cmd) (env.getGroupName name)
            cmd.partitions cmd.partitionSize none) :: tail ∧
        Cmd.callsOf tail = []) ∧
      (∀ group, client.CreateGroup (env.newTimeoutContext cmd) (env.getGroupName name)
          cmd.partitions cmd.partitionSize none = .ok group →
        (runGroupCreateCommand env cmd (name :: rest)).outcome = .exit 0)) := by
  refine ⟨?_, ?_, ?_⟩
  · intro hp
    have hproto : protocolOf cmd.protocol = some .raft := by simp [protocolOf, hp]
    cases h1 : client.CreateGroup (env.newTimeoutContext cmd) (env.getGroupName name)
        cmd.partitions cmd.partitionSize (some .raft) <;>
      simp [runGroupCreateCommand, printGroup, hproto, hc, h1, bind, Cmd.bind, pure,
        Cmd.pure, Cmd.remote, Cmd.emit, Cmd.osExit, ExitWithError, ExitWithSuccess,
        Cmd.callsOf]
  · intro hp
    have hproto : protocolOf cmd.protocol = some .log := by simp [protocolOf, hp]
    cases h1 : client.CreateGroup (env.newTimeoutContext cmd) (env.getGroupName name)
        cmd.partitions cmd.partitionSize (some .log) <;>
      simp [runGroupCreateCommand, printGroup, hproto, hc, h1, bind, Cmd.bind, pure,
        Cmd.pure, Cmd.remote, Cmd.emit, Cmd.osExit, ExitWithError, ExitWithSuccess,
        Cmd.callsOf]
  · intro hr hl
    have hproto : protocolOf cmd.protocol = none := by simp [protocolOf, hr, hl]
    constructor
    · cases h1 : client.CreateGroup (env.newTimeoutContext cmd) (env.getGroupName name)
          cmd.partitions cmd.partitionSize none <;>
        simp [runGroupCreateCommand, printGroup, hproto, hc, h1, bind, Cmd.bind, pure,
          Cmd.pure, Cmd.remote, Cmd.emit, Cmd.osExit, ExitWithError, ExitWithSuccess,
          Cmd.callsOf]
    · intro group h1
      simp [runGroupCreateCommand, printGroup, hproto, hc, h1, bind, Cmd.bind, pure,
        Cmd.pure, Cmd.remote, Cmd.emit, Cmd.osExit, ExitWithSuccess, ExitSuccess]

/-- Witness of C15: `group create mygroup --protocol Raft --partitions 3`. -/
theorem group_create_protocol_exact_match_witness :
    ({ protocol := "Raft", partitions := 3 } : Command).protocol ≠ "raft" ∧
    ({ protocol := "Raft", partitions := 3 } : Command).protocol ≠ "log" ∧
    (runGroupCreateCommand sampleEnv { protocol := "Raft", partitions := 3 }
      ["mygroup"]).calls = [.CreateGroup ⟨15000000000⟩ "mygroup" 3 1 none] ∧
    (runGroupCreateCommand sampleEnv { protocol := "Raft", partitions := 3 }
      ["mygroup"]).outcome = .exit 0 :=
  ⟨by decide, by decide, by decide,
   ((group_create_protocol_exact_match sampleEnv { protocol := "Raft", partitions := 3 }
      "mygroup" [] sampleClient rfl).2.2 (by decide) (by decide)).2
      (sampleGroup "mygroup" 3 1) rfl⟩

end AtomixCli
